import Mathlib

/-!
Verification of the report-bundling scripts of the btc-data repository
(`scripts/build_report.py` and `scripts/build_report_bundle.py`).

The scripts transform JSON documents, so we work over a shallow embedding
of JSON values.  JSON numbers are modelled as rationals (the scripts only
move numbers around, divide, and round to a fixed number of decimals, so
`ℚ` is an exact model of every computation the claims mention; `inf`/`nan`
float literals are outside the model, no claim touches them).  Python
`None` is `Json.null`; a Python function that can raise is embedded as a
function into `Except PyErr _`.
-/

set_option maxHeartbeats 1000000

namespace BtcData

/-- JSON values.  Objects are insertion-ordered association lists, exactly
like the Python dicts produced by `json.load`. -/
inductive Json where
  | null : Json
  | bool (b : Bool) : Json
  | num (q : ℚ) : Json
  | str (s : String) : Json
  | arr (xs : List Json) : Json
  | obj (kvs : List (String × Json)) : Json
  deriving Repr

mutual

/-- Decidable equality of JSON values (the derive handler does not support
this nested inductive, so it is spelled out). -/
def jsonDecEq : (a b : Json) → Decidable (a = b)
  | .null, .null => .isTrue rfl
  | .bool a, .bool b =>
      match decEq a b with
      | .isTrue h => .isTrue (by rw [h])
      | .isFalse h => .isFalse (fun hh => h (Json.bool.inj hh))
  | .num a, .num b =>
      match decEq a b with
      | .isTrue h => .isTrue (by rw [h])
      | .isFalse h => .isFalse (fun hh => h (Json.num.inj hh))
  | .str a, .str b =>
      match decEq a b with
      | .isTrue h => .isTrue (by rw [h])
      | .isFalse h => .isFalse (fun hh => h (Json.str.inj hh))
  | .arr xs, .arr ys =>
      match jsonListDecEq xs ys with
      | .isTrue h => .isTrue (by rw [h])
      | .isFalse h => .isFalse (fun hh => h (Json.arr.inj hh))
  | .obj xs, .obj ys =>
      match jsonKVDecEq xs ys with
      | .isTrue h => .isTrue (by rw [h])
      | .isFalse h => .isFalse (fun hh => h (Json.obj.inj hh))
  | .null, .bool _ | .null, .num _ | .null, .str _ | .null, .arr _ | .null, .obj _
  | .bool _, .null | .bool _, .num _ | .bool _, .str _ | .bool _, .arr _ | .bool _, .obj _
  | .num _, .null | .num _, .bool _ | .num _, .str _ | .num _, .arr _ | .num _, .obj _
  | .str _, .null | .str _, .bool _ | .str _, .num _ | .str _, .arr _ | .str _, .obj _
  | .arr _, .null | .arr _, .bool _ | .arr _, .num _ | .arr _, .str _ | .arr _, .obj _
  | .obj _, .null | .obj _, .bool _ | .obj _, .num _ | .obj _, .str _ | .obj _, .arr _ =>
      .isFalse (by intro h; exact Json.noConfusion h)

def jsonListDecEq : (xs ys : List Json) → Decidable (xs = ys)
  | [], [] => .isTrue rfl
  | [], _ :: _ => .isFalse (by intro h; exact List.noConfusion h)
  | _ :: _, [] => .isFalse (by intro h; exact List.noConfusion h)
  | x :: xs, y :: ys =>
      match jsonDecEq x y with
      | .isTrue h1 =>
          match jsonListDecEq xs ys with
          | .isTrue h2 => .isTrue (by rw [h1, h2])
          | .isFalse h2 => .isFalse (fun hh => h2 (List.cons.inj hh).2)
      | .isFalse h1 => .isFalse (fun hh => h1 (List.cons.inj hh).1)

def jsonKVDecEq : (xs ys : List (String × Json)) → Decidable (xs = ys)
  | [], [] => .isTrue rfl
  | [], _ :: _ => .isFalse (by intro h; exact List.noConfusion h)
  | _ :: _, [] => .isFalse (by intro h; exact List.noConfusion h)
  | (k1, v1) :: xs, (k2, v2) :: ys =>
      match decEq k1 k2 with
      | .isTrue hk =>
          match jsonDecEq v1 v2 with
          | .isTrue h1 =>
              match jsonKVDecEq xs ys with
              | .isTrue h2 => .isTrue (by rw [hk, h1, h2])
              | .isFalse h2 => .isFalse (fun hh => h2 (List.cons.inj hh).2)
          | .isFalse h1 =>
              .isFalse (fun hh => h1 (congrArg Prod.snd (List.cons.inj hh).1))
      | .isFalse hk =>
          .isFalse (fun hh => hk (congrArg Prod.fst (List.cons.inj hh).1))

end

instance : DecidableEq Json := jsonDecEq

/-- Python exceptions that the modelled code can raise. -/
inductive PyErr where
  | attributeError : PyErr
  | typeError : PyErr
  | keyError : PyErr
  | indexError : PyErr
  | nameError (n : String) : PyErr
  | unboundLocal (n : String) : PyErr
  | indentationError : PyErr
  deriving DecidableEq, Repr

/-- Python truthiness of a JSON value (`bool(v)`). -/
def truthy : Json → Bool
  | .null => false
  | .bool b => b
  | .num q => decide (q ≠ 0)
  | .str s => decide (s ≠ "")
  | .arr xs => !xs.isEmpty
  | .obj kvs => !kvs.isEmpty

/-- First-match lookup in an object's entry list (Python dicts have unique
keys, so first match is the only match). -/
def jLookup (kvs : List (String × Json)) (k : String) : Option Json :=
  (kvs.find? (fun p => p.1 = k)).map (fun p => p.2)

/-- `d.get(k)`: `None` when the key is absent; raises `AttributeError`
when the receiver is not a dict. -/
def jGet : Json → String → Except PyErr Json
  | .obj kvs, k => .ok ((jLookup kvs k).getD .null)
  | _, _ => .error .attributeError

/-- `d.get(k, default)`. -/
def jGetD : Json → String → Json → Except PyErr Json
  | .obj kvs, k, d => .ok ((jLookup kvs k).getD d)
  | _, _, _ => .error .attributeError

/-- Python iteration over a value (`for x in v`): lists yield elements,
strings yield 1-character strings, dicts yield their keys; numbers,
booleans and `None` raise `TypeError`. -/
def pyIter : Json → Except PyErr (List Json)
  | .arr xs => .ok xs
  | .str s => .ok (s.toList.map (fun c => .str (String.singleton c)))
  | .obj kvs => .ok (kvs.map (fun p => Json.str p.1))
  | _ => .error .typeError

/-- `s.lower()` (ASCII range; the labels this program lowercases are
ASCII). -/
def pyStrLower (s : String) : String :=
  String.mk (s.toList.map Char.toLower)

/-- `v.lower()`: only strings have `.lower`. -/
def pyLower : Json → Except PyErr String
  | .str s => .ok (pyStrLower s)
  | _ => .error .attributeError

/-! ### `float(x)` — the numeric coercion used by `safe_num` / `fnum`

Both scripts coerce with a bare `float(x)` inside `try/except`.  We model
Python's `float` on finite decimal literals: optional sign, digits with an
optional fractional part, optional exponent.  Whitespace is stripped as
Python does.  (`inf`/`nan`/underscored literals are not modelled; no claim
involves them.) -/

def digitsVal (cs : List Char) : ℕ :=
  cs.foldl (fun a c => a * 10 + (c.toNat - 48)) 0

/-- ASCII whitespace (what `float()` strips from its string argument). -/
def isWS (c : Char) : Bool :=
  c == ' ' || c == '\t' || c == '\n' || c == '\r' || c == '\x0b' || c == '\x0c'

def dropWS : List Char → List Char
  | [] => []
  | c :: r => if isWS c then dropWS r else c :: r

/-- Strip leading and trailing whitespace from a character list. -/
def trimChars (cs : List Char) : List Char :=
  (dropWS (dropWS cs.reverse).reverse)

def takeDigits : List Char → List Char
  | [] => []
  | c :: r => if c.isDigit then c :: takeDigits r else []

def dropDigits : List Char → List Char
  | [] => []
  | c :: r => if c.isDigit then dropDigits r else c :: r

/-- Parse the exponent part after `e`/`E`. -/
def parseExp (base : ℚ) (cs : List Char) : Option ℚ :=
  let p : Bool × List Char :=
    match cs with
    | '+' :: r => (false, r)
    | '-' :: r => (true, r)
    | _ => (false, cs)
  let ds := takeDigits p.2
  if ds.isEmpty || !(dropDigits p.2).isEmpty then none
  else
    let e : ℤ := if p.1 then -(digitsVal ds : ℤ) else (digitsVal ds : ℤ)
    some (base * (10 : ℚ) ^ e)

/-- Parse an unsigned float body: `digits [. digits] [exp]` or `. digits [exp]`. -/
def parseBody (cs : List Char) : Option ℚ :=
  let ip := takeDigits cs
  match dropDigits cs with
  | [] => if ip.isEmpty then none else some (digitsVal ip)
  | '.' :: rest2 =>
      let fp := takeDigits rest2
      if ip.isEmpty && fp.isEmpty then none
      else
        let v : ℚ := (digitsVal ip : ℚ) + (digitsVal fp : ℚ) / (10 : ℚ) ^ fp.length
        match dropDigits rest2 with
        | [] => some v
        | e :: rest4 => if e == 'e' || e == 'E' then parseExp v rest4 else none
  | e :: rest2 =>
      if (e == 'e' || e == 'E') && !ip.isEmpty then parseExp (digitsVal ip) rest2
      else none

/-- `float(s)` on a string: strip whitespace, optional sign, then body.
`none` models a raised `ValueError`. -/
def pyFloatOfString (s : String) : Option ℚ :=
  match trimChars s.toList with
  | '+' :: rest => parseBody rest
  | '-' :: rest => (parseBody rest).map Neg.neg
  | cs => parseBody cs

/-- `float(x)` on a JSON value; `none` models a raised exception
(`ValueError` on bad strings, `TypeError` on `None`/lists/dicts). -/
def pyFloat : Json → Option ℚ
  | .num q => some q
  | .bool b => some (if b then 1 else 0)
  | .str s => pyFloatOfString s
  | _ => none

/-- `build_report.py` lines 27–31:
```
def safe_num(x):
    try:
        return float(x)
    except Exception:
        return None
```
`none` is Python's `None`. -/
def safe_num (x : Json) : Option ℚ := pyFloat x

/-- `build_report_bundle.py` lines 70–74: the nested `fnum` has the very
same body as `safe_num`. -/
def fnum (x : Json) : Option ℚ := pyFloat x

/-! ### `round(x, n)` — Python rounds half to even. -/

/-- Round a rational to the nearest integer, ties to even (Python's
`round`). -/
def roundHalfEven (q : ℚ) : ℤ :=
  let f : ℤ := ⌊q⌋
  let r : ℚ := q - (f : ℚ)
  if r < 1/2 then f
  else if r > 1/2 then f + 1
  else if f % 2 = 0 then f else f + 1

/-- `round(x, 2)`. -/
def round2 (q : ℚ) : ℚ := (roundHalfEven (q * 100) : ℚ) / 100

/-- `round(x, 3)`. -/
def round3 (q : ℚ) : ℚ := (roundHalfEven (q * 1000) : ℚ) / 1000

/-! ### `summarize_rows` — `build_report.py` lines 33–90 -/

/-- `[safe_num(r.get(k)) for r in rows]`: raises `AttributeError` at the
first element that is not a dict. -/
def numsOf (k : String) : List Json → Except PyErr (List (Option ℚ))
  | [] => .ok []
  | r :: rs => do
      let v ← jGet r k
      let rest ← numsOf k rs
      .ok (safe_num v :: rest)

/-- `[(r.get("composite_label") or "neutral").lower() for r in rows]`:
raises on non-dict rows and on truthy non-string labels. -/
def labelsOf : List Json → Except PyErr (List String)
  | [] => .ok []
  | r :: rs => do
      let lv ← jGet r "composite_label"
      let l ← pyLower (if truthy lv then lv else .str "neutral")
      let rest ← labelsOf rs
      .ok (l :: rest)

/-- The label tally accumulator of `summarize_rows` lines 65–72. -/
structure LC where
  bullish : ℕ
  neutral : ℕ
  bearish : ℕ
  deriving DecidableEq, Repr

/-- One step of the label-count loop (lines 66–72). -/
def tallyStep (t : LC) (l : String) : LC :=
  if l = "bullish" then { t with bullish := t.bullish + 1 }
  else if l = "bearish" then { t with bearish := t.bearish + 1 }
  else { t with neutral := t.neutral + 1 }

def tally (ls : List String) : LC := ls.foldl tallyStep ⟨0, 0, 0⟩

/-- Python `None`-or-float as a JSON value. -/
def jsonOfOpt : Option ℚ → Json
  | none => .null
  | some q => .num q

/-- Truthiness of a `float | None` value. -/
def optTruthy : Option ℚ → Bool
  | none => false
  | some q => decide (q ≠ 0)

/-- `x != 0` for a `float | None` value (`None != 0` is `True`). -/
def optNe0 : Option ℚ → Bool
  | none => true
  | some q => decide (q ≠ 0)

/-- `max(l)` on a nonempty float list; `None` for the empty list
(modelling `max(l) if l else None`). -/
def maxList : List ℚ → Option ℚ
  | [] => none
  | x :: xs => some (xs.foldl max x)

def minList : List ℚ → Option ℚ
  | [] => none
  | x :: xs => some (xs.foldl min x)

/-- `build_report.py` lines 33–90, `summarize_rows(obj)`.

`rows = obj.get("rows") or []` is modelled by the `truthy` test; the first
comprehension iterates `rows`, so iteration of a number/boolean raises
`TypeError` and a non-dict element raises `AttributeError` at `.get` — any
run that gets past the `closes` line therefore had a list of dicts, which
is why `rows[0]` / `rows[-1]` are modelled with `headD` / `getLastD`. -/
def summarize_rows (obj : Json) : Except PyErr Json := do
  let rowsField ← jGet obj "rows"
  let rowsJ := if truthy rowsField then rowsField else .arr []
  let rows ← pyIter rowsJ
  let closesOpt ← numsOf "close" rows
  let closes := closesOpt.filterMap id
  if rows.isEmpty || closes.isEmpty then
    let okV ← jGetD obj "ok" (.bool true)
    let verV ← jGet obj "version"
    .ok (.obj [("ok", okV), ("version", verV),
               ("summary", .obj [("count", .num (rows.length : ℚ))]),
               ("label_counts", .obj [])])
  else
    let first := rows.headD .null
    let last := rows.getLastD .null
    let highsOpt ← numsOf "high" rows
    let lowsOpt ← numsOf "low" rows
    let highs := highsOpt.filterMap id
    let lows := lowsOpt.filterMap id
    let vCF ← jGet first "close"
    let close_first := safe_num vCF
    let vCL ← jGet last "close"
    let close_last := safe_num vCL
    let change : Option ℚ :=
      if optTruthy close_first && optTruthy close_last && optNe0 close_first then
        some ((close_last.getD 0 - close_first.getD 0) / close_first.getD 0 * 100)
      else none
    let labels ← labelsOf rows
    let lc := tally labels
    let okV ← jGetD obj "ok" (.bool true)
    let verV ← jGet obj "version"
    let ftu ← jGet first "time_utc"
    let ltu ← jGet last "time_utc"
    let lbl ← jGet last "composite_label"
    let sev ← jGet last "signal_events"
    .ok (.obj [
      ("ok", okV), ("version", verV),
      ("summary", .obj [
        ("count", .num (rows.length : ℚ)),
        ("first_time_utc", ftu),
        ("last_time_utc", ltu),
        ("close_first", jsonOfOpt close_first),
        ("close_last", jsonOfOpt close_last),
        ("close_change_pct",
          match change with
          | some c => Json.num (round2 c)
          | none => Json.null),
        ("high_max", jsonOfOpt (maxList highs)),
        ("low_min", jsonOfOpt (minList lows))]),
      ("label_counts", .obj [
        ("bullish", .num (lc.bullish : ℚ)), ("neutral", .num (lc.neutral : ℚ)),
        ("bearish", .num (lc.bearish : ℚ)), ("total", .num (labels.length : ℚ))]),
      ("latest_label", lbl),
      ("latest_signal_events", sev)])

/-- `k in v` (Python membership): key test on dicts, element test on
lists, substring test on strings, `TypeError` otherwise. -/
def pyContains (v : Json) (k : String) : Except PyErr Bool :=
  match v with
  | .obj kvs => .ok (kvs.any (fun p => p.1 == k))
  | .arr xs => .ok (xs.any (fun x => decide (x = Json.str k)))
  | .str s => .ok (decide (k.toList <:+: s.toList))
  | _ => .error .typeError

/-- `build_report.py` lines 92–100, `summarize_timeseries_file(obj)`:
keep the document as-is unless it contains `rows`. -/
def summarize_timeseries_file (obj : Json) : Except PyErr Json := do
  let b ← pyContains obj "rows"
  if b then summarize_rows obj else .ok obj

/-! ### `strip_raw_deep` — `build_report.py` lines 102–113

The recursion descends only into dict values: `strip_raw_deep` returns any
non-dict (lists included) unchanged. -/

mutual

def strip_raw_deep : Json → Json
  | .obj kvs => .obj (stripEntries kvs)
  | v => v

/-- The `for k, v in d.items()` loop of `strip_raw_deep`. -/
def stripEntries : List (String × Json) → List (String × Json)
  | [] => []
  | (k, v) :: rest =>
      if k == "raw" then stripEntries rest
      else (k, strip_raw_deep v) :: stripEntries rest

end

/-- `build_report_bundle.py` lines 35–44, `compact_insights_local(obj)`:
one iteration of the `for k in ("price", "funding", "macro")` loop.
`out[k] = dict(out[k]); out[k].pop("raw", None)` keeps the entry order and
drops the `raw` key of the *top level* of that sub-dict only. -/
def compactKey (kvs : List (String × Json)) (k : String) : List (String × Json) :=
  match jLookup kvs k with
  | some (.obj inner) =>
      if inner.any (fun p => p.1 == "raw") then
        kvs.map (fun p =>
          if p.1 == k then (p.1, Json.obj (inner.filter (fun q => q.1 != "raw"))) else p)
      else kvs
  | _ => kvs

def compact_insights_local (obj : Json) : Json :=
  match obj with
  | .obj kvs => .obj (compactKey (compactKey (compactKey kvs "price") "funding") "macro")
  | v => v

/-! ### The report assembler — `build_report.py` lines 115–164

The filesystem is abstracted by what `os.path.exists` + `json.load` can
observe for each filename: absent, present-but-unparsable (with the
exception's message), or parsed to a JSON document.  `generated_utc` is a
wall-clock timestamp and is left out of the model; no claim mentions it.
The final `json.dump` writes exactly the『report』value returned here, so
`.ok r` models "the run completed and wrote `r`" and `.error e` models
"an uncaught exception ended the run before the write". -/

inductive FileState where
  | missing : FileState
  | unparsable (msg : String) : FileState
  | parsed (j : Json) : FileState

/-- `FILES` of `build_report.py` lines 9–18. -/
def FILES : List (String × String) :=
  [("dashboard", "dashboard.json"),
   ("insights_local", "insights_local.json"),
   ("latest", "latest.json"),
   ("last-24h", "last-24h.json"),
   ("90d", "90d.json"),
   ("ytd", "ytd.json"),
   ("2023", "2023.json"),
   ("2024", "2024.json")]

/-- The load loop of `main` (lines 122–133): returns the final
`status["ok"]`, `status["missing_files"]`, `status["errors"]` and the
`loaded` dict, all in iteration order. -/
def loadFiles (files : List (String × String)) (fs : String → FileState) :
    Bool × List String × List (String × String) × List (String × Json) :=
  match files with
  | [] => (true, [], [], [])
  | (key, fname) :: rest =>
      let r := loadFiles rest fs
      match fs fname with
      | .missing => (false, fname :: r.2.1, r.2.2.1, r.2.2.2)
      | .unparsable msg => (false, r.2.1, (fname, msg) :: r.2.2.1, r.2.2.2)
      | .parsed j => (r.1, r.2.1, r.2.2.1, (key, j) :: r.2.2.2)

/-- The per-dataset transform applied by `main` lines 135–154:
`dashboard`/`latest` are kept, `insights_local` is raw-stripped,
`last-24h` is summarized, the period files go through
`summarize_timeseries_file`. -/
inductive Policy where
  | keep : Policy
  | stripRaw : Policy
  | summarize : Policy
  | summarizeTS : Policy
  deriving DecidableEq

def applyPolicy : Policy → Json → Except PyErr Json
  | .keep, j => .ok j
  | .stripRaw, j => .ok (strip_raw_deep j)
  | .summarize, j => summarize_rows j
  | .summarizeTS, j => summarize_timeseries_file j

/-- The keys of `main` lines 135–154 with their transforms, in the order
the `data` dict is filled. -/
def POLICIES : List (String × Policy) :=
  [("dashboard", .keep),
   ("insights_local", .stripRaw),
   ("latest", .keep),
   ("last-24h", .summarize),
   ("90d", .summarizeTS),
   ("ytd", .summarizeTS),
   ("2023", .summarizeTS),
   ("2024", .summarizeTS)]

/-- The `data`-building part of `main` (lines 135–154): each configured
key that loaded is transformed and inserted in order; an exception in a
transform propagates (nothing catches it in `main`). -/
def buildData (pols : List (String × Policy)) (loaded : List (String × Json)) :
    Except PyErr (List (String × Json)) :=
  match pols with
  | [] => .ok []
  | (key, pol) :: rest =>
      match jLookup loaded key with
      | none => buildData rest loaded
      | some j => do
          let v ← applyPolicy pol j
          let tail ← buildData rest loaded
          .ok ((key, v) :: tail)

/-- The report value serialized by `main` lines 156–164 (minus the
`generated_utc` timestamp). -/
structure Report where
  schema : String
  status_ok : Bool
  missing_files : List String
  errors : List (String × String)
  data : List (String × Json)
  deriving DecidableEq

/-- `build_report.py` `main()`: load every configured file, then build
`data`; `.ok r` means the run reached the final write with report `r`. -/
def mainReport (fs : String → FileState) : Except PyErr Report := do
  let l := loadFiles FILES fs
  let data ← buildData POLICIES l.2.2.2
  .ok { schema := "btc-data-report-v1", status_ok := l.1,
        missing_files := l.2.1, errors := l.2.2.1, data := data }

/-! ### `build_report_bundle.py`

The second assembler variant.  Its `main` is embedded below; note that the
file as a whole does not even parse (the nested `def fnum` at lines
223–227 is not indented under its `def` header), which is modelled by
`bundle_parses` / `run_bundle_script`. -/

/-- `d[k] = v` on a dict: replaces in place (keeping entry order) or
appends a new entry. -/
def setKey (kvs : List (String × Json)) (k : String) (v : Json) :
    List (String × Json) :=
  if kvs.any (fun p => p.1 == k) then
    kvs.map (fun p => if p.1 == k then (k, v) else p)
  else kvs ++ [(k, v)]

/-- `v[0]`: list/string indexing; dicts raise `KeyError` (a JSON object
has no integer key), other values `TypeError`. -/
def pyIndexFirst : Json → Except PyErr Json
  | .arr [] => .error .indexError
  | .arr (x :: _) => .ok x
  | .str s =>
      match s.toList with
      | [] => .error .indexError
      | c :: _ => .ok (.str (String.singleton c))
  | .obj _ => .error .keyError
  | _ => .error .typeError

/-- `v[-1]`. -/
def pyIndexLast : Json → Except PyErr Json
  | .arr [] => .error .indexError
  | .arr (x :: xs) => .ok ((x :: xs).getLast (by simp))
  | .str s =>
      match s.toList.reverse with
      | [] => .error .indexError
      | c :: _ => .ok (.str (String.singleton c))
  | .obj _ => .error .keyError
  | _ => .error .typeError

/-- `[fnum(r.get(k)) for r in rows if r.get(k) is not None]`
(`summarize_last24h` lines 79–81). -/
def numsIfPresent (k : String) : List Json → Except PyErr (List (Option ℚ))
  | [] => .ok []
  | r :: rs => do
      let v ← jGet r k
      let rest ← numsIfPresent k rs
      match v with
      | .null => .ok rest
      | w => .ok (fnum w :: rest)

/-- `LAST_24H_KEEP_ROWS = int(os.getenv("REPORT_LAST24H_ROWS", "3"))`
(line 10); modelled at its default value. -/
def LAST_24H_KEEP_ROWS : ℕ := 3

/-- `build_report_bundle.py` lines 46–108, `summarize_last24h(obj)`. -/
def summarize_last24h (obj : Json) : Except PyErr Json := do
  match obj with
  | .obj kvs =>
      let rowsField := (jLookup kvs "rows").getD .null
      let rowsJ := if truthy rowsField then rowsField else .arr []
      if !truthy rowsJ then
        .ok (.obj [("ok", .bool (truthy ((jLookup kvs "ok").getD .null))),
                   ("version", (jLookup kvs "version").getD .null),
                   ("summary", .obj [("bars", .num 0)]),
                   ("rows_tail", .arr [])])
      else do
        let r0 ← pyIndexFirst rowsJ
        let vOpen ← jGet r0 "open"
        let open_first := fnum vOpen
        let rl ← pyIndexLast rowsJ
        let vClose ← jGet rl "close"
        let close_last := fnum vClose
        let rows ← pyIter rowsJ
        let highsOpt ← numsIfPresent "high" rows
        let lowsOpt ← numsIfPresent "low" rows
        let volsOpt ← numsIfPresent "volume" rows
        let high := maxList (highsOpt.filterMap id)
        let low := minList (lowsOpt.filterMap id)
        let volume_sum : Option ℚ :=
          if volsOpt.isEmpty then none
          else some ((volsOpt.filterMap id).foldl (· + ·) 0)
        let change : Option ℚ :=
          if optTruthy open_first && close_last.isSome then
            some ((close_last.getD 0 / open_first.getD 0 - 1) * 100)
          else none
        let tail :=
          if LAST_24H_KEEP_ROWS > 0 then rows.drop (rows.length - LAST_24H_KEEP_ROWS)
          else []
        let ftu ← jGet r0 "time_utc"
        let ltu ← jGet rl "time_utc"
        .ok (.obj [
          ("ok", .bool (truthy ((jLookup kvs "ok").getD .null))),
          ("version", (jLookup kvs "version").getD .null),
          ("summary", .obj [
            ("bars", .num (rows.length : ℚ)),
            ("open_first", jsonOfOpt open_first),
            ("close_last", jsonOfOpt close_last),
            ("high", jsonOfOpt high),
            ("low", jsonOfOpt low),
            ("change_pct", jsonOfOpt change),
            ("volume_sum", jsonOfOpt volume_sum),
            ("first_time_utc", ftu),
            ("last_time_utc", ltu)]),
          ("rows_tail", .arr tail)])
  | _ => .ok (.obj [("ok", .bool false), ("error", .str "invalid_json")])

/-- `build_report_bundle.py` lines 110–138, `keep_summary_only(obj)`. -/
def keep_summary_only (obj : Json) : Except PyErr Json :=
  match obj with
  | .obj kvs =>
      let okv := Json.bool (truthy ((jLookup kvs "ok").getD (.bool true)))
      let ver := (jLookup kvs "version").getD .null
      let base1 := [("ok", okv), ("version", ver)]
      let base2 := base1 ++
        (match jLookup kvs "summary" with
         | some s => [("summary", s)]
         | none => [])
      let base3 := base2 ++
        (match jLookup kvs "label_counts" with
         | some l => [("label_counts", l)]
         | none => [])
      match jLookup kvs "rows" with
      | some (.arr (r0 :: rs)) =>
          -- `out["summary"] = out.get("summary") or {...}`; the dict
          -- literal (and its `rows[-1].get` calls) is only evaluated when
          -- the existing summary is absent or falsy
          let cur := (jLookup base3 "summary").getD .null
          if truthy cur then .ok (.obj (setKey base3 "summary" cur))
          else do
            let lastRow := (r0 :: rs).getLast (by simp)
            let lt ← jGet lastRow "time_utc"
            let cl ← jGet lastRow "close"
            .ok (.obj (setKey base3 "summary"
              (.obj [("count", .num ((r0 :: rs).length : ℚ)),
                     ("latest_time_utc", lt),
                     ("close_last", cl)])))
      | _ => .ok (.obj base3)
  | _ => .ok (.obj [("ok", .bool false), ("error", .str "invalid_json")])

/-- `build_report_bundle.py` lines 198–203: the `latest` truncation rule
of the bundle variant (keep only the last row, set `count = 1`). -/
def latest_keep_last (latest0 : Json) : Json :=
  match latest0 with
  | .obj kvs =>
      match jLookup kvs "rows" with
      | some (.arr (r0 :: rs)) =>
          .obj (setKey (setKey kvs "rows" (.arr [(r0 :: rs).getLast (by simp)]))
                "count" (.num 1))
      | _ => latest0
  | _ => latest0

/-- `FILES` of `build_report_bundle.py` lines 12–21 (`tier1` replaces
`insights_local`). -/
def BFILES : List (String × String) :=
  [("dashboard", "dashboard.json"),
   ("tier1", "tier1.json"),
   ("latest", "latest.json"),
   ("last-24h", "last-24h.json"),
   ("90d", "90d.json"),
   ("ytd", "ytd.json"),
   ("2023", "2023.json"),
   ("2024", "2024.json")]

/-- The `for k in ("90d", "ytd", "2023", "2024")` loop of the bundle
`main` (lines 215–217). -/
def buildPeriods (keys : List String) (loaded data : List (String × Json)) :
    Except PyErr (List (String × Json)) :=
  match keys with
  | [] => .ok data
  | k :: rest =>
      match jLookup loaded k with
      | some j => do
          let s ← keep_summary_only j
          buildPeriods rest loaded (data ++ [(k, s)])
      | none => buildPeriods rest loaded data

/-- The body of `build_report_bundle.py` `main()` (lines 140–229) as it
would execute if the file parsed.  Name-binding is explicit:

* `t1` is assigned only inside `if "tier1" in loaded:` (line 168) but read
  unconditionally at line 171 → `NameError` when `tier1.json` did not load;
* `fnum` is a local of `main` whose `def` is at line 223, *after* every
  use; the call at line 180 sits under `try/except Exception`, which
  catches the `UnboundLocalError`, so `spot` is always `None` and line 184
  short-circuits before reading the still-unassigned `latest_close`;
* the call at line 207 is not guarded, so it raises `UnboundLocalError`
  whenever `latest` is a dict with a nonempty `rows` list;
* `latest` is assigned only inside `if "latest" in loaded:` (line 198) but
  read at line 206 → `NameError` when `latest.json` did not load. -/
def bundleMain (fs : String → FileState) : Except PyErr Report := do
  let l := loadFiles BFILES fs
  let loaded := l.2.2.2
  let data0 : List (String × Json) :=
    match jLookup loaded "dashboard" with
    | some j => [("dashboard", j)]
    | none => []
  let t1b : Option Json := (jLookup loaded "tier1").map compact_insights_local
  let t1 ← match t1b with
    | some v => Except.ok v
    | none => Except.error (PyErr.nameError "t1")
  let t1 ← match t1 with
    | Json.obj kvs =>
        let kvs1 := setKey kvs "note" (.str "Tier-1 data is fetched at workflow runtime (spot price, macro, funding). It is NOT the authoritative hourly candle close used by the Sheets engine.")
        pure (Json.obj (setKey (setKey kvs1 "spot_vs_latest_close_usd" .null)
              "spot_vs_latest_close_pct" .null))
    | v => pure v
  let data1 := data0 ++ [("tier1", t1)]
  let latestB : Option Json := (jLookup loaded "latest").map latest_keep_last
  let data2 := data1 ++
    (match latestB with
     | some v => [("latest", v)]
     | none => [])
  let _lc ← match latestB with
    | none => Except.error (PyErr.nameError "latest")
    | some (Json.obj kvs) =>
        match jLookup kvs "rows" with
        | some (.arr (_ :: _)) => Except.error (PyErr.unboundLocal "fnum")
        | _ => Except.ok Json.null
    | some _ => Except.ok Json.null
  let data3 ← match jLookup loaded "last-24h" with
    | some j => do
        let s ← summarize_last24h j
        pure (data2 ++ [("last-24h", s)])
    | none => pure data2
  let data4 ← buildPeriods ["90d", "ytd", "2023", "2024"] loaded data3
  .ok { schema := "btc-data-report-v1", status_ok := l.1,
        missing_files := l.2.1, errors := l.2.2.1, data := data4 }

/-- Lines 223–227 of `build_report_bundle.py`, as (indentation, text)
pairs, verbatim from the source:
```
    def fnum(x):
    try:
        return float(x)
    except Exception:
        return None
```
The `try:` line is at the same indentation as the `def` header instead of
deeper. -/
def fnumDefBlock : List (ℕ × String) :=
  [(4, "def fnum(x):"), (4, "try:"), (8, "return float(x)"),
   (4, "except Exception:"), (8, "return None")]

/-- A Python line that opens a suite: its last character is a colon. -/
def opensSuite (l : String) : Bool :=
  l.toList.getLastD ' ' == ':'

/-- The indentation rule these lines violate: a line that opens a suite
must be followed by a more-indented line.  CPython's parser enforces this
(raising `IndentationError`) before any code runs. -/
def suiteIndentOK : List (ℕ × String) → Bool
  | (i1, l1) :: (i2, l2) :: rest =>
      (!(opensSuite l1) || i2 > i1) && suiteIndentOK ((i2, l2) :: rest)
  | _ => true

/-- Whether `build_report_bundle.py` compiles as Python.  The rest of the
file is well-indented, so parsing reduces to the block above. -/
def bundle_parses : Bool := suiteIndentOK fnumDefBlock

/-- Running `python3 build_report_bundle.py`: the module is parsed in
full before execution, so a bad suite anywhere means `IndentationError`
before `main()` is ever entered. -/
def run_bundle_script (fs : String → FileState) : Except PyErr Report :=
  if bundle_parses then bundleMain fs else .error .indentationError

/-! ### Observation helpers used by the theorem statements -/

/-- Whether a JSON value is a dict. -/
def isObjb : Json → Bool
  | .obj _ => true
  | _ => false

/-- Total `.get(k)` for values known to be dicts (`null` otherwise); on
dicts this agrees with `jGet`. -/
def rowGet (r : Json) (k : String) : Json :=
  match r with
  | .obj kvs => (jLookup kvs k).getD .null
  | _ => .null

/-- Field access on a JSON object. -/
def jField (j : Json) (k : String) : Option Json :=
  match j with
  | .obj kvs => jLookup kvs k
  | _ => none

/-- Two-level field access. -/
def jField2 (j : Json) (k1 k2 : String) : Option Json :=
  match jField j k1 with
  | some v => jField v k2
  | none => none

/-- Two-level field access through an `Except` result. -/
def resultField2 (r : Except PyErr Json) (k1 k2 : String) : Option Json :=
  match r with
  | .ok j => jField2 j k1 k2
  | .error _ => none

/-- Field access into a completed report's `data`. -/
def reportDataField (r : Except PyErr Report) (k : String) : Option Json :=
  match r with
  | .ok rep => jLookup rep.data k
  | .error _ => none

/-- The coercible values of field `k` over a row list, in order (what the
`closes`/`highs`/`lows` lists of `summarize_rows` hold after filtering). -/
def numsVals (k : String) (rows : List Json) : List ℚ :=
  (rows.map (fun r => safe_num (rowGet r k))).filterMap id

/-- A row's label is usable by `summarize_rows` without raising: its
`composite_label` is either falsy (absent, `None`, `""`, …) or a string. -/
def labelOKb (r : Json) : Bool :=
  match rowGet r "composite_label" with
  | .str _ => true
  | v => !truthy v

/-- The label `summarize_rows` tallies for one (dict, label-usable) row. -/
def labelOf (r : Json) : String :=
  match rowGet r "composite_label" with
  | .str s => if s = "" then "neutral" else pyStrLower s
  | _ => "neutral"

/-- `close_first` as computed by `summarize_rows` line 57: the coercion of
the *first row's* close (not the first coercible close). -/
def closeFirstOf (rows : List Json) : Option ℚ :=
  safe_num (rowGet (rows.headD .null) "close")

/-- `close_last` (line 58): coercion of the last row's close. -/
def closeLastOf (rows : List Json) : Option ℚ :=
  safe_num (rowGet (rows.getLastD .null) "close")

/-- `change_pct` (lines 59–61). -/
def changeOf (rows : List Json) : Option ℚ :=
  if optTruthy (closeFirstOf rows) && optTruthy (closeLastOf rows) &&
      optNe0 (closeFirstOf rows) then
    some (((closeLastOf rows).getD 0 - (closeFirstOf rows).getD 0) /
      (closeFirstOf rows).getD 0 * 100)
  else none

/-- The document `summarize_rows` returns on its main path (rows nonempty,
at least one coercible close), expressed over the source row list. -/
def rowsOutput (kvs : List (String × Json)) (rows : List Json) : Json :=
  .obj [
    ("ok", (jLookup kvs "ok").getD (.bool true)),
    ("version", (jLookup kvs "version").getD .null),
    ("summary", .obj [
      ("count", .num (rows.length : ℚ)),
      ("first_time_utc", rowGet (rows.headD .null) "time_utc"),
      ("last_time_utc", rowGet (rows.getLastD .null) "time_utc"),
      ("close_first", jsonOfOpt (closeFirstOf rows)),
      ("close_last", jsonOfOpt (closeLastOf rows)),
      ("close_change_pct",
        match changeOf rows with
        | some c => Json.num (round2 c)
        | none => Json.null),
      ("high_max", jsonOfOpt (maxList (numsVals "high" rows))),
      ("low_min", jsonOfOpt (minList (numsVals "low" rows)))]),
    ("label_counts", .obj [
      ("bullish", .num ((tally (rows.map labelOf)).bullish : ℚ)),
      ("neutral", .num ((tally (rows.map labelOf)).neutral : ℚ)),
      ("bearish", .num ((tally (rows.map labelOf)).bearish : ℚ)),
      ("total", .num (rows.length : ℚ))]),
    ("latest_label", rowGet (rows.getLastD .null) "composite_label"),
    ("latest_signal_events", rowGet (rows.getLastD .null) "signal_events")]

mutual

/-- A key literally named `"raw"` occurs somewhere along a pure-dict path
(the only places `strip_raw_deep` ever looks). -/
def hasRawShallow : Json → Bool
  | .obj kvs => entriesHasRaw kvs
  | _ => false

def entriesHasRaw : List (String × Json) → Bool
  | [] => false
  | (k, v) :: rest => k == "raw" || hasRawShallow v || entriesHasRaw rest

end

mutual

/-- Written from the claim's words: the tree contains a key literally
named `"raw"` at *any* nesting depth, including inside lists. -/
def containsKeyRaw : Json → Bool
  | .obj kvs => entriesContainRaw kvs
  | .arr xs => listContainsRaw xs
  | _ => false

def listContainsRaw : List Json → Bool
  | [] => false
  | x :: xs => containsKeyRaw x || listContainsRaw xs

def entriesContainRaw : List (String × Json) → Bool
  | [] => false
  | (k, v) :: rest => k == "raw" || containsKeyRaw v || entriesContainRaw rest

end

def FileState.isMissing : FileState → Bool
  | .missing => true
  | _ => false

def FileState.isUnparsable : FileState → Bool
  | .unparsable _ => true
  | _ => false

def FileState.isParsed : FileState → Bool
  | .parsed _ => true
  | _ => false

/-- `FILES` and `POLICIES` are the two projections of one configuration
list (`main` walks the same keys in the same order in both loops). -/
def CONFIG : List (String × String × Policy) :=
  [("dashboard", "dashboard.json", .keep),
   ("insights_local", "insights_local.json", .stripRaw),
   ("latest", "latest.json", .keep),
   ("last-24h", "last-24h.json", .summarize),
   ("90d", "90d.json", .summarizeTS),
   ("ytd", "ytd.json", .summarizeTS),
   ("2023", "2023.json", .summarizeTS),
   ("2024", "2024.json", .summarizeTS)]

/-- The `loaded` dict in terms of the configuration. -/
def loadedOf (cfg : List (String × String × Policy))
    (fs : String → FileState) : List (String × Json) :=
  cfg.filterMap (fun c =>
    match fs c.2.1 with
    | .parsed j => some (c.1, j)
    | _ => none)

/-- The report `build_report.py` produces when only `latest.json` exists,
holding `{rows: [1, 2, 3], count: 3}`. -/
def C7report : Report :=
  { schema := "btc-data-report-v1", status_ok := false,
    missing_files := ["dashboard.json", "insights_local.json",
      "last-24h.json", "90d.json", "ytd.json", "2023.json", "2024.json"],
    errors := [],
    data := [("latest", Json.obj [("rows", Json.arr [Json.num 1,
      Json.num 2, Json.num 3]), ("count", Json.num 3)])] }

/-- The filesystem state of the C8 witness: `dashboard.json` parses,
`ytd.json` is present but malformed, everything else is absent. -/
def fsC8 : String → FileState := fun f =>
  if f = "dashboard.json" then FileState.parsed (Json.obj [])
  else if f = "ytd.json" then FileState.unparsable "boom"
  else FileState.missing

/-- The report `build_report.py` writes under `fsC8`. -/
def C8report : Report :=
  { schema := "btc-data-report-v1", status_ok := false,
    missing_files := ["insights_local.json", "latest.json", "last-24h.json",
      "90d.json", "2023.json", "2024.json"],
    errors := [("ytd.json", "boom")],
    data := [("dashboard", Json.obj [])] }

/-! ### Lemmas -/

/-- Induction over JSON trees, descending into list elements and object
values. -/
theorem json_induction (P : Json → Prop)
    (hnull : P .null) (hbool : ∀ b, P (.bool b)) (hnum : ∀ q, P (.num q))
    (hstr : ∀ s, P (.str s))
    (harr : ∀ xs, (∀ x ∈ xs, P x) → P (.arr xs))
    (hobj : ∀ kvs, (∀ p ∈ kvs, P p.2) → P (.obj kvs)) :
    ∀ t, P t
  | .null => hnull
  | .bool b => hbool b
  | .num q => hnum q
  | .str s => hstr s
  | .arr xs => harr xs (fun x hx =>
      json_induction P hnull hbool hnum hstr harr hobj x)
  | .obj kvs => hobj kvs (fun p hp =>
      json_induction P hnull hbool hnum hstr harr hobj p.2)
termination_by t => sizeOf t
decreasing_by
  · have := List.sizeOf_lt_of_mem hx
    simp only [Json.arr.sizeOf_spec]
    omega
  · have h1 := List.sizeOf_lt_of_mem hp
    have h2 : sizeOf p.2 < sizeOf p := by
      obtain ⟨a, b⟩ := p
      simp only [Prod.mk.sizeOf_spec]
      omega
    simp only [Json.obj.sizeOf_spec]
    omega

@[simp] theorem jLookup_nil (k : String) : jLookup [] k = none := rfl

theorem jLookup_cons (k1 : String) (v1 : Json) (rest : List (String × Json))
    (k : String) :
    jLookup ((k1, v1) :: rest) k = if k1 = k then some v1 else jLookup rest k := by
  by_cases h : k1 = k <;> simp [jLookup, List.find?, h]

theorem stripEntries_eq (kvs : List (String × Json)) :
    stripEntries kvs =
      (kvs.filter (fun p => p.1 ≠ "raw")).map
        (fun p => (p.1, strip_raw_deep p.2)) := by
  induction kvs with
  | nil => simp [stripEntries]
  | cons p rest ih =>
      obtain ⟨k, v⟩ := p
      by_cases hk : k = "raw" <;> simp [stripEntries, hk, ih]

theorem entriesHasRaw_strip (kvs : List (String × Json))
    (ih : ∀ p ∈ kvs, hasRawShallow (strip_raw_deep p.2) = false) :
    entriesHasRaw (stripEntries kvs) = false := by
  induction kvs with
  | nil => simp [stripEntries, entriesHasRaw]
  | cons p rest irest =>
      obtain ⟨k, v⟩ := p
      have hv := ih (k, v) (by simp)
      have hrest := irest (fun q hq => ih q (by simp [hq]))
      by_cases hk : k = "raw" <;>
        simp [stripEntries, hk, entriesHasRaw, hv, hrest]

theorem strip_raw_deep_no_shallow_raw (t : Json) :
    hasRawShallow (strip_raw_deep t) = false := by
  induction t using json_induction with
  | hnull => simp [strip_raw_deep, hasRawShallow]
  | hbool b => simp [strip_raw_deep, hasRawShallow]
  | hnum q => simp [strip_raw_deep, hasRawShallow]
  | hstr s => simp [strip_raw_deep, hasRawShallow]
  | harr xs _ => simp [strip_raw_deep, hasRawShallow]
  | hobj kvs ih =>
      simp only [strip_raw_deep, hasRawShallow]
      exact entriesHasRaw_strip kvs ih

theorem strip_raw_deep_nonobj (t : Json) (h : isObjb t = false) :
    strip_raw_deep t = t := by
  cases t <;> simp_all [isObjb, strip_raw_deep]

theorem jLookup_stripEntries (kvs : List (String × Json)) (k : String)
    (v : Json) (hk : k ≠ "raw") (h : jLookup kvs k = some v) :
    jLookup (stripEntries kvs) k = some (strip_raw_deep v) := by
  induction kvs with
  | nil => simp at h
  | cons p rest ih =>
      obtain ⟨k1, v1⟩ := p
      by_cases h1 : k1 = k
      · subst h1
        rw [jLookup_cons, if_pos rfl] at h
        cases h
        simp [stripEntries, hk, jLookup_cons]
      · rw [jLookup_cons, if_neg h1] at h
        by_cases h2 : k1 = "raw"
        · simpa [stripEntries, h2] using ih h
        · rw [show stripEntries ((k1, v1) :: rest)
              = (k1, strip_raw_deep v1) :: stripEntries rest by
            simp [stripEntries, h2]]
          rw [jLookup_cons, if_neg h1]
          exact ih h

theorem isEmpty_false_of_ne_nil {α : Type} {l : List α} (h : l ≠ []) :
    l.isEmpty = false := by
  cases l with
  | nil => exact absurd rfl h
  | cons a t => rfl

theorem jGet_obj (r : Json) (k : String) (h : isObjb r = true) :
    jGet r k = .ok (rowGet r k) := by
  cases r <;> simp_all [isObjb, jGet, rowGet]

theorem numsOf_ok (k : String) (rows : List Json)
    (h : ∀ r ∈ rows, isObjb r = true) :
    numsOf k rows = .ok (rows.map (fun r => safe_num (rowGet r k))) := by
  induction rows with
  | nil => simp [numsOf]
  | cons r rest ih =>
      have hr := h r (by simp)
      have hrest := ih (fun x hx => h x (by simp [hx]))
      simp [numsOf, jGet_obj r k hr, hrest, Bind.bind, Except.bind]

@[simp] theorem pyStrLower_neutral : pyStrLower "neutral" = "neutral" := rfl

theorem labelsOf_ok (rows : List Json)
    (hobj : ∀ r ∈ rows, isObjb r = true)
    (hlab : ∀ r ∈ rows, labelOKb r = true) :
    labelsOf rows = .ok (rows.map labelOf) := by
  induction rows with
  | nil => simp [labelsOf]
  | cons r rest ih =>
      have hr := hobj r (by simp)
      have hl := hlab r (by simp)
      have hrest := ih (fun x hx => hobj x (by simp [hx]))
        (fun x hx => hlab x (by simp [hx]))
      have hpl : pyLower (if truthy (rowGet r "composite_label")
            then rowGet r "composite_label" else .str "neutral") =
          (Except.ok (labelOf r) : Except PyErr String) := by
        cases hv : rowGet r "composite_label" with
        | str s =>
            by_cases hs : s = "" <;> simp_all [labelOf, pyLower, truthy]
        | null => simp_all [labelOf, pyLower, truthy]
        | bool b => simp_all [labelOKb, labelOf, pyLower, truthy]
        | num q => simp_all [labelOKb, labelOf, pyLower, truthy]
        | arr xs => simp_all [labelOKb, labelOf, pyLower, truthy]
        | obj okvs => simp_all [labelOKb, labelOf, pyLower, truthy]
      simp [labelsOf, jGet_obj r "composite_label" hr, hpl, hrest,
        Bind.bind, Except.bind]

theorem tally_sum_aux (ls : List String) (t : LC) :
    (ls.foldl tallyStep t).bullish + (ls.foldl tallyStep t).neutral +
      (ls.foldl tallyStep t).bearish =
      t.bullish + t.neutral + t.bearish + ls.length := by
  induction ls generalizing t with
  | nil => simp
  | cons l rest ih =>
      simp only [List.foldl_cons, List.length_cons]
      rw [ih]
      unfold tallyStep
      by_cases h1 : l = "bullish"
      · simp [h1]; omega
      · by_cases h2 : l = "bearish" <;> simp [h1, h2] <;> omega

theorem tally_sum (ls : List String) :
    (tally ls).bullish + (tally ls).neutral + (tally ls).bearish = ls.length := by
  simpa [tally] using tally_sum_aux ls ⟨0, 0, 0⟩

theorem headD_mem {α : Type} (l : List α) (d : α) (h : l ≠ []) :
    l.headD d ∈ l := by
  cases l with
  | nil => exact absurd rfl h
  | cons a t => simp

theorem getLastD_mem {α : Type} (l : List α) (d : α) (h : l ≠ []) :
    l.getLastD d ∈ l := by
  cases l with
  | nil => exact absurd rfl h
  | cons a t =>
      rw [List.getLastD_eq_getLast?, List.getLast?_eq_getLast (a :: t) (by simp)]
      exact List.getLast_mem (by simp)

/-- The main path of `summarize_rows`: a dict whose `rows` is a nonempty
list of dicts with usable labels and at least one coercible close yields
exactly `rowsOutput`. -/
theorem summarize_rows_main (kvs : List (String × Json)) (rows : List Json)
    (hrows : jLookup kvs "rows" = some (.arr rows))
    (hne : rows ≠ [])
    (hobj : ∀ r ∈ rows, isObjb r = true)
    (hlab : ∀ r ∈ rows, labelOKb r = true)
    (hcl : numsVals "close" rows ≠ []) :
    summarize_rows (.obj kvs) = .ok (rowsOutput kvs rows) := by
  have hheadobj : isObjb (rows.headD .null) = true :=
    hobj _ (headD_mem rows .null hne)
  have hlastobj : isObjb (rows.getLastD .null) = true :=
    hobj _ (getLastD_mem rows .null hne)
  have hre : rows.isEmpty = false := isEmpty_false_of_ne_nil hne
  have hce : ((rows.map (fun r => safe_num (rowGet r "close"))).filterMap id).isEmpty
      = false := isEmpty_false_of_ne_nil (by simpa [numsVals] using hcl)
  have hjr : jGet (Json.obj kvs) "rows" = .ok (.arr rows) := by
    simp [jGet, hrows]
  have htm : truthy (Json.arr rows) = true := by simp [truthy, hre]
  simp only [summarize_rows, hjr, htm, if_true, Bind.bind, Except.bind,
    pyIter, numsOf_ok "close" rows hobj, numsOf_ok "high" rows hobj,
    numsOf_ok "low" rows hobj, hre, hce, Bool.or_self, Bool.false_or,
    if_false, jGet_obj _ _ hheadobj, jGet_obj _ _ hlastobj,
    labelsOf_ok rows hobj hlab, jGetD]
  simp [rowsOutput, closeFirstOf, closeLastOf, changeOf, numsVals, tally, jGet]

/-- The early path of `summarize_rows` (lines 41–47): empty rows or no
coercible close. -/
theorem summarize_rows_early (kvs : List (String × Json)) (rows : List Json)
    (hrows : jLookup kvs "rows" = some (.arr rows))
    (hobj : ∀ r ∈ rows, isObjb r = true)
    (hempty : rows = [] ∨ numsVals "close" rows = []) :
    summarize_rows (.obj kvs) = .ok (.obj [
      ("ok", (jLookup kvs "ok").getD (.bool true)),
      ("version", (jLookup kvs "version").getD .null),
      ("summary", .obj [("count", .num (rows.length : ℚ))]),
      ("label_counts", .obj [])]) := by
  have hjr : jGet (Json.obj kvs) "rows" = .ok (.arr rows) := by
    simp [jGet, hrows]
  have hcondJ : (if truthy (Json.arr rows) then Json.arr rows else Json.arr [])
      = Json.arr rows := by
    cases rows <;> simp [truthy]
  have hc : (rows.isEmpty ||
      ((rows.map (fun r => safe_num (rowGet r "close"))).filterMap id).isEmpty)
      = true := by
    rcases hempty with h | h
    · simp [h]
    · have hnil : ((rows.map (fun r => safe_num (rowGet r "close"))).filterMap id)
          = [] := by simpa [numsVals] using h
      simp [hnil]
  simp only [summarize_rows, hjr, Bind.bind, Except.bind, hcondJ, pyIter,
    numsOf_ok "close" rows hobj, hc, if_true, jGetD]
  simp [jGet]

/-! #### Load-loop and data-loop lemmas -/

theorem loadFiles_ok_iff (files : List (String × String))
    (fs : String → FileState) :
    (loadFiles files fs).1 = true ↔
      (loadFiles files fs).2.1 = [] ∧ (loadFiles files fs).2.2.1 = [] := by
  induction files with
  | nil => simp [loadFiles]
  | cons p rest ih =>
      obtain ⟨k, fname⟩ := p
      cases h : fs fname <;> simp [loadFiles, h, ih]

theorem loadFiles_miss (files : List (String × String))
    (fs : String → FileState) :
    (loadFiles files fs).2.1 =
      (files.filter (fun p => (fs p.2).isMissing)).map (fun p => p.2) := by
  induction files with
  | nil => simp [loadFiles]
  | cons p rest ih =>
      obtain ⟨k, fname⟩ := p
      cases h : fs fname <;> simp [loadFiles, h, ih, FileState.isMissing]

theorem loadFiles_errs (files : List (String × String))
    (fs : String → FileState) :
    (loadFiles files fs).2.2.1.map (fun p => p.1) =
      (files.filter (fun p => (fs p.2).isUnparsable)).map (fun p => p.2) := by
  induction files with
  | nil => simp [loadFiles]
  | cons p rest ih =>
      obtain ⟨k, fname⟩ := p
      cases h : fs fname <;> simp [loadFiles, h, ih, FileState.isUnparsable]

theorem loadFiles_loaded (files : List (String × String))
    (fs : String → FileState) :
    (loadFiles files fs).2.2.2 =
      files.filterMap (fun p =>
        match fs p.2 with
        | .parsed j => some (p.1, j)
        | _ => none) := by
  induction files with
  | nil => simp [loadFiles]
  | cons p rest ih =>
      obtain ⟨k, fname⟩ := p
      cases h : fs fname <;> simp [loadFiles, h, ih]

/-- Keys absent from the policy list are invisible to `buildData`. -/
theorem buildData_cons_irrelevant (pols : List (String × Policy))
    (k : String) (j : Json) (loaded : List (String × Json))
    (h : ∀ p ∈ pols, p.1 ≠ k) :
    buildData pols ((k, j) :: loaded) = buildData pols loaded := by
  induction pols with
  | nil => simp [buildData]
  | cons p rest ih =>
      obtain ⟨k1, pol⟩ := p
      have hk1 : k1 ≠ k := h (k1, pol) (by simp)
      have hk2 : ¬(k = k1) := fun hh => hk1 hh.symm
      have hrest := ih (fun q hq => h q (by simp [hq]))
      simp only [buildData, jLookup_cons, if_neg hk2, hrest]

theorem FILES_eq : FILES = CONFIG.map (fun c => (c.1, c.2.1)) := rfl

theorem POLICIES_eq : POLICIES = CONFIG.map (fun c => (c.1, c.2.2)) := rfl

theorem loaded_eq (cfg : List (String × String × Policy))
    (fs : String → FileState) :
    (loadFiles (cfg.map (fun c => (c.1, c.2.1))) fs).2.2.2 = loadedOf cfg fs := by
  rw [loadFiles_loaded, List.filterMap_map]
  rfl

theorem jLookup_loadedOf_none (cfg : List (String × String × Policy))
    (fs : String → FileState) (k : String)
    (h : ∀ c ∈ cfg, c.1 ≠ k) :
    jLookup (loadedOf cfg fs) k = none := by
  induction cfg with
  | nil => simp [loadedOf]
  | cons c rest ih =>
      have hc : c.1 ≠ k := h c (by simp)
      have hrest := ih (fun q hq => h q (by simp [hq]))
      cases hfs : fs c.2.1 <;> simp_all [loadedOf, jLookup_cons, hc]

theorem buildData_keys (cfg : List (String × String × Policy))
    (fs : String → FileState)
    (hnd : (cfg.map (fun c => c.1)).Nodup) (d : List (String × Json))
    (h : buildData (cfg.map (fun c => (c.1, c.2.2))) (loadedOf cfg fs) = .ok d) :
    d.map (fun p => p.1) =
      (cfg.filter (fun c => (fs c.2.1).isParsed)).map (fun c => c.1) := by
  induction cfg generalizing d with
  | nil =>
      simp [loadedOf, buildData] at h
      subst h
      simp
  | cons c rest ih =>
      obtain ⟨k, fname, pol⟩ := c
      rw [List.map_cons, List.nodup_cons] at hnd
      obtain ⟨hk, hndr⟩ := hnd
      have hirr : ∀ p ∈ rest.map (fun c => (c.1, c.2.2)), p.1 ≠ k := by
        intro p hp hpk
        exact hk (by
          rcases List.mem_map.mp hp with ⟨c0, hc0, rfl⟩
          exact hpk ▸ List.mem_map_of_mem (fun c => c.1) hc0)
      cases hfs : fs fname with
      | parsed j =>
          rw [List.map_cons] at h
          rw [show loadedOf ((k, fname, pol) :: rest) fs
              = (k, j) :: loadedOf rest fs by simp [loadedOf, hfs]] at h
          rw [show buildData ((k, pol) :: rest.map (fun c => (c.1, c.2.2)))
                ((k, j) :: loadedOf rest fs)
              = (do
                  let v ← applyPolicy pol j
                  let tail ← buildData (rest.map (fun c => (c.1, c.2.2)))
                    ((k, j) :: loadedOf rest fs)
                  Except.ok ((k, v) :: tail)) by
            simp [buildData, jLookup_cons]] at h
          rw [buildData_cons_irrelevant _ _ _ _ hirr] at h
          cases happ : applyPolicy pol j with
          | error e => rw [happ] at h; simp [Bind.bind, Except.bind] at h
          | ok v =>
              rw [happ] at h
              cases hbd : buildData (rest.map (fun c => (c.1, c.2.2)))
                  (loadedOf rest fs) with
              | error e => rw [hbd] at h; simp [Bind.bind, Except.bind] at h
              | ok tail =>
                  rw [hbd] at h
                  simp only [Bind.bind, Except.bind] at h
                  cases h
                  simp [List.filter_cons, hfs, FileState.isParsed,
                    ih hndr tail hbd]
      | missing =>
          rw [List.map_cons] at h
          rw [show loadedOf ((k, fname, pol) :: rest) fs = loadedOf rest fs by
            simp [loadedOf, hfs]] at h
          have hnone : jLookup (loadedOf rest fs) k = none :=
            jLookup_loadedOf_none rest fs k (by
              intro c0 hc0 hck
              exact hk (hck ▸ List.mem_map_of_mem (fun c => c.1) hc0))
          rw [show buildData ((k, pol) :: rest.map (fun c => (c.1, c.2.2)))
                (loadedOf rest fs)
              = buildData (rest.map (fun c => (c.1, c.2.2))) (loadedOf rest fs) by
            simp [buildData, hnone]] at h
          simp [List.filter_cons, hfs, FileState.isParsed, ih hndr d h]
      | unparsable msg =>
          rw [List.map_cons] at h
          rw [show loadedOf ((k, fname, pol) :: rest) fs = loadedOf rest fs by
            simp [loadedOf, hfs]] at h
          have hnone : jLookup (loadedOf rest fs) k = none :=
            jLookup_loadedOf_none rest fs k (by
              intro c0 hc0 hck
              exact hk (hck ▸ List.mem_map_of_mem (fun c => c.1) hc0))
          rw [show buildData ((k, pol) :: rest.map (fun c => (c.1, c.2.2)))
                (loadedOf rest fs)
              = buildData (rest.map (fun c => (c.1, c.2.2))) (loadedOf rest fs) by
            simp [buildData, hnone]] at h
          simp [List.filter_cons, hfs, FileState.isParsed, ih hndr d h]

/-- A key configured with policy `keep` whose file parsed appears in the
built `data` with its document unchanged. -/
theorem buildData_keep_lookup (cfg : List (String × String × Policy))
    (fs : String → FileState)
    (hnd : (cfg.map (fun c => c.1)).Nodup)
    (d : List (String × Json)) (k fname : String) (j : Json)
    (hmem : (k, fname, Policy.keep) ∈ cfg)
    (hfs : fs fname = .parsed j)
    (h : buildData (cfg.map (fun c => (c.1, c.2.2))) (loadedOf cfg fs) = .ok d) :
    jLookup d k = some j := by
  induction cfg generalizing d with
  | nil => simp at hmem
  | cons c rest ih =>
      obtain ⟨k1, f1, p1⟩ := c
      rw [List.map_cons, List.nodup_cons] at hnd
      obtain ⟨hk, hndr⟩ := hnd
      have hirr : ∀ p ∈ rest.map (fun c => (c.1, c.2.2)), p.1 ≠ k1 := by
        intro p hp hpk
        exact hk (by
          rcases List.mem_map.mp hp with ⟨c0, hc0, rfl⟩
          exact hpk ▸ List.mem_map_of_mem (fun c => c.1) hc0)
      rcases List.mem_cons.mp hmem with hhead | htail
      · injection hhead with h1 h2
        injection h2 with h2 h3
        subst h1; subst h2; subst h3
        rw [List.map_cons] at h
        rw [show loadedOf ((k, fname, Policy.keep) :: rest) fs
            = (k, j) :: loadedOf rest fs by simp [loadedOf, hfs]] at h
        rw [show buildData ((k, Policy.keep) :: rest.map (fun c => (c.1, c.2.2)))
              ((k, j) :: loadedOf rest fs)
            = (do
                let tail ← buildData (rest.map (fun c => (c.1, c.2.2)))
                  ((k, j) :: loadedOf rest fs)
                Except.ok ((k, j) :: tail)) by
          simp [buildData, jLookup_cons, applyPolicy, Bind.bind, Except.bind]] at h
        rw [buildData_cons_irrelevant _ _ _ _ hirr] at h
        cases hbd : buildData (rest.map (fun c => (c.1, c.2.2)))
            (loadedOf rest fs) with
        | error e => rw [hbd] at h; simp [Bind.bind, Except.bind] at h
        | ok tail =>
            rw [hbd] at h
            simp only [Bind.bind, Except.bind] at h
            cases h
            simp [jLookup_cons]
      · have hkrest : k ∈ rest.map (fun c => c.1) := by
          simpa using List.mem_map_of_mem (fun c => c.1) htail
        have hk1k : ¬(k1 = k) := fun hh => hk (hh ▸ hkrest)
        cases hfs1 : fs f1 with
        | parsed j1 =>
            rw [List.map_cons] at h
            rw [show loadedOf ((k1, f1, p1) :: rest) fs
                = (k1, j1) :: loadedOf rest fs by simp [loadedOf, hfs1]] at h
            rw [show buildData ((k1, p1) :: rest.map (fun c => (c.1, c.2.2)))
                  ((k1, j1) :: loadedOf rest fs)
                = (do
                    let v ← applyPolicy p1 j1
                    let tail ← buildData (rest.map (fun c => (c.1, c.2.2)))
                      ((k1, j1) :: loadedOf rest fs)
                    Except.ok ((k1, v) :: tail)) by
              simp [buildData, jLookup_cons]] at h
            rw [buildData_cons_irrelevant _ _ _ _ hirr] at h
            cases happ : applyPolicy p1 j1 with
            | error e => rw [happ] at h; simp [Bind.bind, Except.bind] at h
            | ok v =>
                rw [happ] at h
                cases hbd : buildData (rest.map (fun c => (c.1, c.2.2)))
                    (loadedOf rest fs) with
                | error e => rw [hbd] at h; simp [Bind.bind, Except.bind] at h
                | ok tail =>
                    rw [hbd] at h
                    simp only [Bind.bind, Except.bind] at h
                    cases h
                    rw [jLookup_cons, if_neg hk1k]
                    exact ih hndr tail htail hbd
        | missing =>
            rw [List.map_cons] at h
            rw [show loadedOf ((k1, f1, p1) :: rest) fs = loadedOf rest fs by
              simp [loadedOf, hfs1]] at h
            have hnone : jLookup (loadedOf rest fs) k1 = none :=
              jLookup_loadedOf_none rest fs k1 (by
                intro c0 hc0 hck
                exact hk (hck ▸ List.mem_map_of_mem (fun c => c.1) hc0))
            rw [show buildData ((k1, p1) :: rest.map (fun c => (c.1, c.2.2)))
                  (loadedOf rest fs)
                = buildData (rest.map (fun c => (c.1, c.2.2))) (loadedOf rest fs) by
              simp [buildData, hnone]] at h
            exact ih hndr d htail h
        | unparsable msg =>
            rw [List.map_cons] at h
            rw [show loadedOf ((k1, f1, p1) :: rest) fs = loadedOf rest fs by
              simp [loadedOf, hfs1]] at h
            have hnone : jLookup (loadedOf rest fs) k1 = none :=
              jLookup_loadedOf_none rest fs k1 (by
                intro c0 hc0 hck
                exact hk (hck ▸ List.mem_map_of_mem (fun c => c.1) hc0))
            rw [show buildData ((k1, p1) :: rest.map (fun c => (c.1, c.2.2)))
                  (loadedOf rest fs)
                = buildData (rest.map (fun c => (c.1, c.2.2))) (loadedOf rest fs) by
              simp [buildData, hnone]] at h
            exact ih hndr d htail h

theorem jLookup_any_false (kvs : List (String × Json)) (k : String)
    (h : kvs.any (fun p => p.1 == k) = false) : jLookup kvs k = none := by
  induction kvs with
  | nil => simp
  | cons p rest ih =>
      obtain ⟨k1, v1⟩ := p
      simp only [List.any_cons, Bool.or_eq_false_iff] at h
      have hk : ¬(k1 = k) := by simpa using h.1
      rw [jLookup_cons, if_neg hk]
      exact ih h.2

theorem jLookup_append_left (l1 l2 : List (String × Json)) (k : String)
    (x : Json) (h : jLookup l1 k = some x) :
    jLookup (l1 ++ l2) k = some x := by
  induction l1 with
  | nil => simp at h
  | cons p rest ih =>
      obtain ⟨k1, v1⟩ := p
      by_cases hk : k1 = k
      · subst hk
        rw [jLookup_cons, if_pos rfl] at h
        simpa [jLookup_cons] using h
      · rw [jLookup_cons, if_neg hk] at h
        simpa [jLookup_cons, hk] using ih h

theorem jLookup_append_none (l1 l2 : List (String × Json)) (k : String)
    (h : jLookup l1 k = none) :
    jLookup (l1 ++ l2) k = jLookup l2 k := by
  induction l1 with
  | nil => simp
  | cons p rest ih =>
      obtain ⟨k1, v1⟩ := p
      by_cases hk : k1 = k
      · subst hk
        rw [jLookup_cons, if_pos rfl] at h
        simp at h
      · rw [jLookup_cons, if_neg hk] at h
        simpa [jLookup_cons, hk] using ih h

theorem jLookup_map_replace (kvs : List (String × Json)) (k : String)
    (v : Json) (h : kvs.any (fun p => p.1 == k) = true) :
    jLookup (kvs.map (fun p => if p.1 == k then (k, v) else p)) k = some v := by
  induction kvs with
  | nil => simp at h
  | cons p rest ih =>
      obtain ⟨k1, v1⟩ := p
      by_cases hk : k1 = k
      · subst hk
        simp [jLookup_cons]
      · simp only [List.any_cons] at h
        have h2 : rest.any (fun p => p.1 == k) = true := by
          simpa [hk] using h
        simpa [hk, jLookup_cons] using ih h2

theorem jLookup_setKey_self (kvs : List (String × Json)) (k : String)
    (v : Json) : jLookup (setKey kvs k v) k = some v := by
  unfold setKey
  by_cases h : kvs.any (fun p => p.1 == k) = true
  · simp only [h, if_true]
    exact jLookup_map_replace kvs k v h
  · have hf : kvs.any (fun p => p.1 == k) = false := Bool.eq_false_iff.mpr h
    simp only [hf, Bool.false_eq_true, if_false]
    rw [jLookup_append_none kvs [(k, v)] k (jLookup_any_false kvs k hf)]
    simp [jLookup_cons]

theorem jLookup_map_replace_other (kvs : List (String × Json)) (k : String)
    (v : Json) (k2 : String) (hne : k2 ≠ k) :
    jLookup (kvs.map (fun p => if p.1 == k then (k, v) else p)) k2 =
      jLookup kvs k2 := by
  induction kvs with
  | nil => simp
  | cons p rest ih =>
      obtain ⟨k1, v1⟩ := p
      by_cases hk : k1 = k
      · subst hk
        have h1 : ¬(k1 = k2) := fun hh => hne hh.symm
        simp_all [jLookup_cons]
      · by_cases h2 : k1 = k2
        · subst h2
          simp_all [jLookup_cons]
        · simp_all [jLookup_cons]

theorem jLookup_setKey_other (kvs : List (String × Json)) (k : String)
    (v : Json) (k2 : String) (hne : k2 ≠ k) :
    jLookup (setKey kvs k v) k2 = jLookup kvs k2 := by
  unfold setKey
  by_cases h : kvs.any (fun p => p.1 == k) = true
  · simp only [h, if_true]
    exact jLookup_map_replace_other kvs k v k2 hne
  · have hf : kvs.any (fun p => p.1 == k) = false := Bool.eq_false_iff.mpr h
    simp only [hf, Bool.false_eq_true, if_false]
    cases hl : jLookup kvs k2 with
    | some x => exact jLookup_append_left kvs [(k, v)] k2 x hl
    | none =>
        rw [jLookup_append_none kvs [(k, v)] k2 hl]
        rw [jLookup_cons, if_neg (fun hh => hne hh.symm)]
        simp

/-! ## Claims -/

/-- C1, counterexample: `strip_raw_deep` does not recurse into lists, so
on `{"price": [{"raw": 1}]}` the `raw` key survives at depth 2 (and
`compact_insights_local` does not even remove a top-level `raw`). -/
theorem C1_counterexample :
    containsKeyRaw (strip_raw_deep
      (Json.obj [("price", Json.arr [Json.obj [("raw", Json.num 1)]])])) = true ∧
    containsKeyRaw (compact_insights_local
      (Json.obj [("raw", Json.num 1)])) = true := by
  constructor
  · simp [strip_raw_deep, stripEntries, containsKeyRaw, listContainsRaw,
      entriesContainRaw]
  · simp [compact_insights_local, compactKey, jLookup_cons, containsKeyRaw,
      entriesContainRaw]

/-- C1 (amended): `strip_raw_deep` removes every `"raw"` key reachable
through dicts alone, leaves any non-dict value (lists included)
unchanged, and preserves every other key with its value recursively
stripped; keys inside lists are out of its reach. -/
theorem C1_theorem :
    (∀ t, hasRawShallow (strip_raw_deep t) = false) ∧
    (∀ t, isObjb t = false → strip_raw_deep t = t) ∧
    (∀ kvs k v, k ≠ "raw" → jLookup kvs k = some v →
      jLookup (stripEntries kvs) k = some (strip_raw_deep v)) :=
  ⟨strip_raw_deep_no_shallow_raw, strip_raw_deep_nonobj, jLookup_stripEntries⟩

/-- C1 witness: the amended statement at concrete inputs. -/
theorem C1_witness :
    hasRawShallow (strip_raw_deep
      (Json.obj [("raw", Json.num 1),
                 ("keep", Json.obj [("raw", Json.num 2)])])) = false ∧
    strip_raw_deep (Json.arr [Json.obj [("raw", Json.num 1)]]) =
      Json.arr [Json.obj [("raw", Json.num 1)]] ∧
    jLookup (stripEntries [("raw", Json.num 1), ("b", Json.num 2)]) "b" =
      some (strip_raw_deep (Json.num 2)) :=
  ⟨C1_theorem.1 _, C1_theorem.2.1 _ rfl,
   C1_theorem.2.2 [("raw", Json.num 1), ("b", Json.num 2)] "b" (Json.num 2)
     (by decide) rfl⟩

/-- C4, counterexample: `safe_num` is a bare `float(x)` in `try/except`;
it does not strip thousands separators nor negate parenthesised values —
both claimed conversions come back `None`. -/
theorem C4_counterexample :
    safe_num (Json.str "1,234.5") = none ∧
    safe_num (Json.str "(12.5)") = none ∧
    (none : Option ℚ) ≠ some (12345 / 10) ∧
    (none : Option ℚ) ≠ some (-(125 / 10)) :=
  ⟨rfl, rfl, by simp, by simp⟩

/-- C4 (amended): the recognised missing tokens coerce to `None` (they are
simply not parseable as floats), plain float strings parse, numbers pass
through, and comma-grouped or parenthesised strings also coerce to `None`
rather than the claimed cleaned-up values; `fnum` of the bundle script is
the same function.  `safe_num` is total (never raises): its result type is
already `float | None`. -/
theorem C4_theorem :
    (∀ q, safe_num (Json.num q) = some q) ∧
    safe_num Json.null = none ∧
    safe_num (Json.str "") = none ∧
    safe_num (Json.str "-") = none ∧
    safe_num (Json.str "—") = none ∧
    safe_num (Json.str "–") = none ∧
    safe_num (Json.str "N/A") = none ∧
    safe_num (Json.str "null") = none ∧
    safe_num (Json.str "None") = none ∧
    safe_num (Json.str "1,234.5") = none ∧
    safe_num (Json.str "(12.5)") = none ∧
    safe_num (Json.str "1234.5") = some (12345 / 10) ∧
    safe_num (Json.str " 42 ") = some 42 ∧
    (∀ x, fnum x = safe_num x) := by
  refine ⟨fun q => rfl, rfl, rfl, rfl, rfl, rfl, rfl, rfl, rfl, rfl, rfl,
    ?_, rfl, fun x => rfl⟩
  rw [show safe_num (Json.str "1234.5")
      = some ((1234 : ℚ) + 5 / 10 ^ (1 : ℕ)) from rfl]
  norm_num

/-- C2, counterexample: one row whose close does not coerce — the early
return emits `label_counts = {}`, with no `total` key at all, although
`len(R) = 1`. -/
theorem C2_counterexample :
    summarize_rows (Json.obj [("rows", Json.arr
        [Json.obj [("close", Json.str "x"),
                   ("composite_label", Json.str "bullish")]])])
      = .ok (Json.obj [("ok", Json.bool true), ("version", Json.null),
          ("summary", Json.obj [("count", Json.num 1)]),
          ("label_counts", Json.obj [])]) ∧
    resultField2 (summarize_rows (Json.obj [("rows", Json.arr
        [Json.obj [("close", Json.str "x"),
                   ("composite_label", Json.str "bullish")]])]))
      "label_counts" "total" = none :=
  ⟨rfl, rfl⟩

/-- C2 (amended): `label_counts.total = len(R)` with
`bullish + neutral + bearish = total` holds only on the main path — rows
nonempty and at least one coercible close; otherwise `label_counts` is the
empty object (no `total` key). -/
theorem C2_theorem (kvs : List (String × Json)) (rows : List Json)
    (hrows : jLookup kvs "rows" = some (.arr rows))
    (hobj : ∀ r ∈ rows, isObjb r = true)
    (hlab : ∀ r ∈ rows, labelOKb r = true) :
    (rows ≠ [] → numsVals "close" rows ≠ [] →
      summarize_rows (.obj kvs) = .ok (rowsOutput kvs rows) ∧
      jField2 (rowsOutput kvs rows) "label_counts" "total"
        = some (.num (rows.length : ℚ)) ∧
      (tally (rows.map labelOf)).bullish + (tally (rows.map labelOf)).neutral
        + (tally (rows.map labelOf)).bearish = rows.length) ∧
    (rows = [] ∨ numsVals "close" rows = [] →
      summarize_rows (.obj kvs) = .ok (.obj [
        ("ok", (jLookup kvs "ok").getD (.bool true)),
        ("version", (jLookup kvs "version").getD .null),
        ("summary", .obj [("count", .num (rows.length : ℚ))]),
        ("label_counts", .obj [])])) := by
  constructor
  · intro hne hcl
    refine ⟨summarize_rows_main kvs rows hrows hne hobj hlab hcl, ?_, ?_⟩
    · simp [rowsOutput, jField2, jField, jLookup_cons]
    · simpa using tally_sum (rows.map labelOf)
  · intro h
    exact summarize_rows_early kvs rows hrows hobj h

/-- C2 witness: the amended statement at a one-row input with a coercible
close. -/
theorem C2_witness :
    summarize_rows (.obj [("rows", Json.arr
        [Json.obj [("close", Json.num 5),
                   ("composite_label", Json.str "Bullish")]])])
      = .ok (rowsOutput [("rows", Json.arr
          [Json.obj [("close", Json.num 5),
                     ("composite_label", Json.str "Bullish")]])]
          [Json.obj [("close", Json.num 5),
                     ("composite_label", Json.str "Bullish")]]) ∧
    jField2 (rowsOutput [("rows", Json.arr
        [Json.obj [("close", Json.num 5),
                   ("composite_label", Json.str "Bullish")]])]
        [Json.obj [("close", Json.num 5),
                   ("composite_label", Json.str "Bullish")]])
      "label_counts" "total"
      = some (.num (([Json.obj [("close", Json.num 5),
          ("composite_label", Json.str "Bullish")]].length : ℚ))) ∧
    (tally ([Json.obj [("close", Json.num 5),
        ("composite_label", Json.str "Bullish")]].map labelOf)).bullish +
      (tally ([Json.obj [("close", Json.num 5),
        ("composite_label", Json.str "Bullish")]].map labelOf)).neutral +
      (tally ([Json.obj [("close", Json.num 5),
        ("composite_label", Json.str "Bullish")]].map labelOf)).bearish
      = [Json.obj [("close", Json.num 5),
          ("composite_label", Json.str "Bullish")]].length :=
  (C2_theorem [("rows", Json.arr
      [Json.obj [("close", Json.num 5),
                 ("composite_label", Json.str "Bullish")]])]
    [Json.obj [("close", Json.num 5),
               ("composite_label", Json.str "Bullish")]]
    rfl (by decide) (by decide)).1 (by simp)
    (by rw [show numsVals "close" [Json.obj [("close", Json.num 5),
          ("composite_label", Json.str "Bullish")]] = [(5 : ℚ)] from rfl]
        exact List.cons_ne_nil _ _)

/-- C3, counterexample: closes 100 then 0, fully coercible and nonempty —
the truthiness guard `close_first and close_last` makes the emitted
`close_change_pct` `None` although the baseline is 100 ≠ 0. -/
theorem C3_counterexample :
    resultField2 (summarize_rows (Json.obj [("rows", Json.arr
        [Json.obj [("close", Json.num 100)],
         Json.obj [("close", Json.num 0)]])]))
      "summary" "close_change_pct" = some Json.null ∧
    resultField2 (summarize_rows (Json.obj [("rows", Json.arr
        [Json.obj [("close", Json.num 100)],
         Json.obj [("close", Json.num 0)]])]))
      "summary" "close_first" = some (Json.num 100) ∧
    (100 : ℚ) ≠ 0 :=
  ⟨rfl, rfl, by norm_num⟩

/-- C3 (amended): for a nonempty, fully-coercible close sequence the
emitted `close_change_pct` is `None` iff the first close is `0` *or the
last close is `0`* — a zero last close also suppresses the percent
change. -/
theorem C3_theorem (kvs : List (String × Json)) (rows : List Json)
    (hrows : jLookup kvs "rows" = some (.arr rows))
    (hne : rows ≠ [])
    (hobj : ∀ r ∈ rows, isObjb r = true)
    (hlab : ∀ r ∈ rows, labelOKb r = true)
    (hallcl : ∀ r ∈ rows, (safe_num (rowGet r "close")).isSome = true) :
    summarize_rows (.obj kvs) = .ok (rowsOutput kvs rows) ∧
    (jField2 (rowsOutput kvs rows) "summary" "close_change_pct"
        = some Json.null
      ↔ closeFirstOf rows = some 0 ∨ closeLastOf rows = some 0) := by
  have ha0 := hallcl _ (headD_mem rows .null hne)
  have hb0 := hallcl _ (getLastD_mem rows .null hne)
  obtain ⟨a, ha⟩ := Option.isSome_iff_exists.mp ha0
  obtain ⟨b, hb⟩ := Option.isSome_iff_exists.mp hb0
  have haf : closeFirstOf rows = some a := ha
  have hbf : closeLastOf rows = some b := hb
  have hcl : numsVals "close" rows ≠ [] := by
    intro hnil
    have hmem : a ∈ numsVals "close" rows := by
      simp only [numsVals, List.mem_filterMap, List.mem_map, id]
      exact ⟨some a, ⟨rows.headD .null, headD_mem rows .null hne, ha⟩, rfl⟩
    rw [hnil] at hmem
    simp at hmem
  refine ⟨summarize_rows_main kvs rows hrows hne hobj hlab hcl, ?_⟩
  have hfield : jField2 (rowsOutput kvs rows) "summary" "close_change_pct"
      = some (match changeOf rows with
              | some c => Json.num (round2 c)
              | none => Json.null) := by
    simp [rowsOutput, jField2, jField, jLookup_cons]
  rw [hfield]
  constructor
  · intro h
    cases hch : changeOf rows with
    | some c => rw [hch] at h; simp at h
    | none =>
        rw [changeOf, haf, hbf] at hch
        by_cases haz : a = 0
        · exact Or.inl (haz ▸ haf)
        · by_cases hbz : b = 0
          · exact Or.inr (hbz ▸ hbf)
          · simp [optTruthy, optNe0, haz, hbz] at hch
  · intro h
    have hch : changeOf rows = none := by
      rcases h with h | h
      · rw [haf] at h
        injection h with h
        rw [changeOf, haf]
        simp [optTruthy, h]
      · rw [hbf] at h
        injection h with h
        rw [changeOf, hbf]
        simp [optTruthy, h]
    rw [hch]

/-- C3 witness: a two-row fully-coercible dataset with nonzero closes. -/
theorem C3_witness :
    summarize_rows (.obj [("rows", Json.arr
        [Json.obj [("close", Json.num 2)], Json.obj [("close", Json.num 8)]])])
      = .ok (rowsOutput [("rows", Json.arr
          [Json.obj [("close", Json.num 2)], Json.obj [("close", Json.num 8)]])]
          [Json.obj [("close", Json.num 2)], Json.obj [("close", Json.num 8)]]) ∧
    (jField2 (rowsOutput [("rows", Json.arr
        [Json.obj [("close", Json.num 2)], Json.obj [("close", Json.num 8)]])]
        [Json.obj [("close", Json.num 2)], Json.obj [("close", Json.num 8)]])
        "summary" "close_change_pct" = some Json.null
      ↔ closeFirstOf [Json.obj [("close", Json.num 2)],
            Json.obj [("close", Json.num 8)]] = some 0 ∨
        closeLastOf [Json.obj [("close", Json.num 2)],
            Json.obj [("close", Json.num 8)]] = some 0) :=
  C3_theorem [("rows", Json.arr
      [Json.obj [("close", Json.num 2)], Json.obj [("close", Json.num 8)]])]
    [Json.obj [("close", Json.num 2)], Json.obj [("close", Json.num 8)]]
    rfl (by simp) (by decide) (by decide) (by decide)

/-- C5, counterexample: first row's close does not coerce but a later one
does — `close_first` is emitted as `None`, not as the first coercible
close `5`. -/
theorem C5_counterexample :
    resultField2 (summarize_rows (Json.obj [("rows", Json.arr
        [Json.obj [("close", Json.str "x")],
         Json.obj [("close", Json.str "5")]])]))
      "summary" "close_first" = some Json.null ∧
    safe_num (Json.str "5") = some 5 ∧
    some Json.null ≠ some (Json.num 5) :=
  ⟨rfl, rfl, by simp⟩

/-- C5 (amended): `close_first`/`close_last` are the coercions of the
*first and last rows'* closes (`None` when those rows' closes do not
coerce — no skipping); the percent change is
`round((last - first)/first*100, 2)` exactly when both coerce to nonzero
values. -/
theorem C5_theorem (kvs : List (String × Json)) (rows : List Json)
    (hrows : jLookup kvs "rows" = some (.arr rows))
    (hne : rows ≠ [])
    (hobj : ∀ r ∈ rows, isObjb r = true)
    (hlab : ∀ r ∈ rows, labelOKb r = true)
    (hcl : numsVals "close" rows ≠ []) :
    summarize_rows (.obj kvs) = .ok (rowsOutput kvs rows) ∧
    jField2 (rowsOutput kvs rows) "summary" "close_first"
      = some (jsonOfOpt (closeFirstOf rows)) ∧
    jField2 (rowsOutput kvs rows) "summary" "close_last"
      = some (jsonOfOpt (closeLastOf rows)) ∧
    (∀ a b, closeFirstOf rows = some a → a ≠ 0 →
      closeLastOf rows = some b → b ≠ 0 →
      jField2 (rowsOutput kvs rows) "summary" "close_change_pct"
        = some (Json.num (round2 ((b - a) / a * 100)))) := by
  refine ⟨summarize_rows_main kvs rows hrows hne hobj hlab hcl,
    by simp [rowsOutput, jField2, jField, jLookup_cons],
    by simp [rowsOutput, jField2, jField, jLookup_cons], ?_⟩
  intro a b ha haz hb hbz
  have hch : changeOf rows = some ((b - a) / a * 100) := by
    rw [changeOf, ha, hb]
    simp [optTruthy, optNe0, haz, hbz]
  simp [rowsOutput, jField2, jField, jLookup_cons, hch]

/-- C5 witness: closes 100 then 50 — percent change −50.00. -/
theorem C5_witness :
    summarize_rows (.obj [("rows", Json.arr
        [Json.obj [("close", Json.num 100)],
         Json.obj [("close", Json.num 50)]])])
      = .ok (rowsOutput [("rows", Json.arr
          [Json.obj [("close", Json.num 100)],
           Json.obj [("close", Json.num 50)]])]
          [Json.obj [("close", Json.num 100)],
           Json.obj [("close", Json.num 50)]]) ∧
    jField2 (rowsOutput [("rows", Json.arr
        [Json.obj [("close", Json.num 100)],
         Json.obj [("close", Json.num 50)]])]
        [Json.obj [("close", Json.num 100)],
         Json.obj [("close", Json.num 50)]]) "summary" "close_first"
      = some (jsonOfOpt (closeFirstOf
          [Json.obj [("close", Json.num 100)],
           Json.obj [("close", Json.num 50)]])) ∧
    jField2 (rowsOutput [("rows", Json.arr
        [Json.obj [("close", Json.num 100)],
         Json.obj [("close", Json.num 50)]])]
        [Json.obj [("close", Json.num 100)],
         Json.obj [("close", Json.num 50)]]) "summary" "close_last"
      = some (jsonOfOpt (closeLastOf
          [Json.obj [("close", Json.num 100)],
           Json.obj [("close", Json.num 50)]])) ∧
    (∀ a b, closeFirstOf [Json.obj [("close", Json.num 100)],
          Json.obj [("close", Json.num 50)]] = some a → a ≠ 0 →
      closeLastOf [Json.obj [("close", Json.num 100)],
          Json.obj [("close", Json.num 50)]] = some b → b ≠ 0 →
      jField2 (rowsOutput [("rows", Json.arr
          [Json.obj [("close", Json.num 100)],
           Json.obj [("close", Json.num 50)]])]
          [Json.obj [("close", Json.num 100)],
           Json.obj [("close", Json.num 50)]]) "summary" "close_change_pct"
        = some (Json.num (round2 ((b - a) / a * 100)))) :=
  C5_theorem [("rows", Json.arr
      [Json.obj [("close", Json.num 100)],
       Json.obj [("close", Json.num 50)]])]
    [Json.obj [("close", Json.num 100)], Json.obj [("close", Json.num 50)]]
    rfl (by simp) (by decide) (by decide)
    (by rw [show numsVals "close" [Json.obj [("close", Json.num 100)],
          Json.obj [("close", Json.num 50)]] = [(100 : ℚ), 50] from rfl]
        exact List.cons_ne_nil _ _)

/-- C6, counterexample: a non-mapping element in `rows` is not filtered
out — `r.get("close")` raises `AttributeError` and the whole dataset
summarization aborts. -/
theorem C6_counterexample :
    summarize_rows (Json.obj [("rows", Json.arr [Json.str "bad"])])
      = .error .attributeError := rfl

/-- C6 (amended): summarization is total only on row lists whose elements
are all mappings (with usable labels); there a field that does not coerce
is simply absent from that statistic (`high_max` is the max over the
coercible highs alone), without aborting the row or dataset.  Non-mapping
row elements raise instead of being filtered. -/
theorem C6_theorem (kvs : List (String × Json)) (rows : List Json)
    (hrows : jLookup kvs "rows" = some (.arr rows))
    (hobj : ∀ r ∈ rows, isObjb r = true)
    (hlab : ∀ r ∈ rows, labelOKb r = true) :
    (∃ out, summarize_rows (.obj kvs) = .ok out) ∧
    (rows ≠ [] → numsVals "close" rows ≠ [] →
      jField2 (rowsOutput kvs rows) "summary" "high_max"
        = some (jsonOfOpt (maxList (numsVals "high" rows)))) := by
  constructor
  · by_cases hne : rows = []
    · exact ⟨_, summarize_rows_early kvs rows hrows hobj (Or.inl hne)⟩
    · by_cases hcl : numsVals "close" rows = []
      · exact ⟨_, summarize_rows_early kvs rows hrows hobj (Or.inr hcl)⟩
      · exact ⟨_, summarize_rows_main kvs rows hrows hne hobj hlab hcl⟩
  · intro _ _
    simp [rowsOutput, jField2, jField, jLookup_cons]

/-- C6 witness: a row with a coercible close and a non-coercible high
still summarizes. -/
theorem C6_witness :
    (∃ out, summarize_rows (.obj [("rows", Json.arr
        [Json.obj [("close", Json.num 5), ("high", Json.str "oops")]])])
      = .ok out) ∧
    ([Json.obj [("close", Json.num 5), ("high", Json.str "oops")]] ≠ [] →
      numsVals "close" [Json.obj [("close", Json.num 5),
          ("high", Json.str "oops")]] ≠ [] →
      jField2 (rowsOutput [("rows", Json.arr
          [Json.obj [("close", Json.num 5), ("high", Json.str "oops")]])]
          [Json.obj [("close", Json.num 5), ("high", Json.str "oops")]])
          "summary" "high_max"
        = some (jsonOfOpt (maxList (numsVals "high"
            [Json.obj [("close", Json.num 5), ("high", Json.str "oops")]])))) :=
  C6_theorem [("rows", Json.arr
      [Json.obj [("close", Json.num 5), ("high", Json.str "oops")]])]
    [Json.obj [("close", Json.num 5), ("high", Json.str "oops")]]
    rfl (by decide) (by decide)

theorem getLastD_eq_getLast (r0 : Json) (rs : List Json) :
    (r0 :: rs).getLastD Json.null = (r0 :: rs).getLast (by simp) := by
  rw [List.getLastD_eq_getLast?, List.getLast?_eq_getLast _ (by simp)]
  rfl

/-- C7, counterexample: `build_report.py` keeps `latest.json` exactly
as-is (`data["latest"] = loaded["latest"]`); `{rows: [r1, r2, r3],
count: 3}` is *not* truncated to `{rows: [r3], count: 1}`. -/
theorem C7_counterexample :
    reportDataField (mainReport (fun f => if f = "latest.json"
        then FileState.parsed (Json.obj [("rows", Json.arr [Json.num 1,
          Json.num 2, Json.num 3]), ("count", Json.num 3)])
        else FileState.missing)) "latest"
      = some (Json.obj [("rows", Json.arr [Json.num 1, Json.num 2, Json.num 3]),
          ("count", Json.num 3)]) ∧
    Json.obj [("rows", Json.arr [Json.num 1, Json.num 2, Json.num 3]),
        ("count", Json.num 3)]
      ≠ Json.obj [("rows", Json.arr [Json.num 3]), ("count", Json.num 1)] :=
  ⟨rfl, by simp⟩

/-- C7 (amended): `build_report.py`'s assembler passes the loaded `latest`
document through unchanged; the single-row truncation (`rows := [last]`,
`count := 1`) exists only in `build_report_bundle.py`'s `main`
(lines 198–203, embedded as `latest_keep_last`), a script that never runs
(its file does not parse, see C10). -/
theorem C7_theorem :
    (∀ fs j r, fs "latest.json" = .parsed j → mainReport fs = .ok r →
      jLookup r.data "latest" = some j) ∧
    (∀ kvs rows, jLookup kvs "rows" = some (.arr rows) → rows ≠ [] →
      jField (latest_keep_last (.obj kvs)) "rows"
        = some (.arr [rows.getLastD Json.null]) ∧
      jField (latest_keep_last (.obj kvs)) "count" = some (.num 1)) := by
  constructor
  · intro fs j r hfs h
    obtain ⟨d, hbd, hr2⟩ : ∃ d,
        buildData POLICIES (loadFiles FILES fs).2.2.2 = .ok d ∧
        r.data = d := by
      unfold mainReport at h
      cases hbd : buildData POLICIES (loadFiles FILES fs).2.2.2 with
      | error e => simp [hbd, Bind.bind, Except.bind] at h
      | ok d =>
          simp only [hbd, Bind.bind, Except.bind] at h
          injection h with h2
          exact ⟨d, rfl, by rw [← h2]⟩
    rw [hr2]
    have hbd2 : buildData (CONFIG.map (fun c => (c.1, c.2.2)))
        (loadedOf CONFIG fs) = .ok d := by
      rw [← POLICIES_eq, ← loaded_eq CONFIG fs, ← FILES_eq]
      exact hbd
    exact buildData_keep_lookup CONFIG fs (by decide) d "latest"
      "latest.json" j (by decide) hfs hbd2
  · intro kvs rows hr hne
    cases rows with
    | nil => exact absurd rfl hne
    | cons r0 rs =>
        have hll : latest_keep_last (.obj kvs)
            = .obj (setKey (setKey kvs "rows"
                (.arr [(r0 :: rs).getLast (by simp)])) "count" (.num 1)) := by
          simp [latest_keep_last, hr]
        rw [hll]
        constructor
        · show jLookup (setKey (setKey kvs "rows" _) "count" _) "rows" = _
          rw [jLookup_setKey_other _ "count" _ "rows" (by decide),
            jLookup_setKey_self, getLastD_eq_getLast]
        · show jLookup (setKey (setKey kvs "rows" _) "count" _) "count" = _
          rw [jLookup_setKey_self]

/-- C7 witness: the amended statement at `{rows: [1, 2, 3], count: 3}`. -/
theorem C7_witness :
    jLookup C7report.data
      "latest" = some (Json.obj [("rows", Json.arr [Json.num 1, Json.num 2,
        Json.num 3]), ("count", Json.num 3)]) ∧
    jField (latest_keep_last (.obj [("rows", Json.arr [Json.num 1, Json.num 2,
        Json.num 3]), ("count", Json.num 3)])) "rows"
      = some (.arr [[Json.num 1, Json.num 2, Json.num 3].getLastD Json.null]) ∧
    jField (latest_keep_last (.obj [("rows", Json.arr [Json.num 1, Json.num 2,
        Json.num 3]), ("count", Json.num 3)])) "count" = some (.num 1) :=
  ⟨C7_theorem.1 (fun f => if f = "latest.json"
      then FileState.parsed (Json.obj [("rows", Json.arr [Json.num 1,
        Json.num 2, Json.num 3]), ("count", Json.num 3)])
      else FileState.missing)
    (Json.obj [("rows", Json.arr [Json.num 1, Json.num 2, Json.num 3]),
      ("count", Json.num 3)]) _ rfl rfl,
   (C7_theorem.2 [("rows", Json.arr [Json.num 1, Json.num 2, Json.num 3]),
      ("count", Json.num 3)] [Json.num 1, Json.num 2, Json.num 3]
      rfl (by simp)).1,
   (C7_theorem.2 [("rows", Json.arr [Json.num 1, Json.num 2, Json.num 3]),
      ("count", Json.num 3)] [Json.num 1, Json.num 2, Json.num 3]
      rfl (by simp)).2⟩

/-- C8, counterexample: the per-dataset *transforms* are not guarded — a
`last-24h.json` that parses to a bare number makes `summarize_rows` raise
`AttributeError` out of `main`, so no report (status block included) is
written at all, against "for every filesystem state … without failing the
run". -/
theorem C8_counterexample :
    mainReport (fun f => if f = "last-24h.json"
        then FileState.parsed (Json.num 5) else FileState.missing)
      = .error .attributeError := rfl

/-- C8 (amended): on every filesystem state where the run completes (no
transform raised), the report lists exactly the missing configured files
in `missing_files`, exactly the present-but-unparsable ones in `errors`,
`status.ok` is false iff either list is nonempty, and a dataset key is in
`data` exactly when its file parsed. -/
theorem C8_theorem (fs : String → FileState) (r : Report)
    (h : mainReport fs = .ok r) :
    (r.status_ok = false ↔ (r.missing_files ≠ [] ∨ r.errors ≠ [])) ∧
    r.missing_files =
      (FILES.filter (fun p => (fs p.2).isMissing)).map (fun p => p.2) ∧
    r.errors.map (fun p => p.1) =
      (FILES.filter (fun p => (fs p.2).isUnparsable)).map (fun p => p.2) ∧
    r.data.map (fun p => p.1) =
      (FILES.filter (fun p => (fs p.2).isParsed)).map (fun p => p.1) := by
  obtain ⟨d, hbd, hr⟩ : ∃ d,
      buildData POLICIES (loadFiles FILES fs).2.2.2 = .ok d ∧
      r = { schema := "btc-data-report-v1",
            status_ok := (loadFiles FILES fs).1,
            missing_files := (loadFiles FILES fs).2.1,
            errors := (loadFiles FILES fs).2.2.1, data := d } := by
    unfold mainReport at h
    cases hbd : buildData POLICIES (loadFiles FILES fs).2.2.2 with
    | error e => simp [hbd, Bind.bind, Except.bind] at h
    | ok d =>
        simp only [hbd, Bind.bind, Except.bind] at h
        injection h with h2
        exact ⟨d, rfl, h2.symm⟩
  subst hr
  refine ⟨?_, loadFiles_miss FILES fs, loadFiles_errs FILES fs, ?_⟩
  · show (loadFiles FILES fs).1 = false ↔ _
    rw [Bool.eq_false_iff]
    rw [show ((loadFiles FILES fs).1 ≠ true) ↔
        ¬((loadFiles FILES fs).1 = true) from Iff.rfl]
    rw [loadFiles_ok_iff FILES fs]
    constructor
    · intro hn
      by_cases hm : (loadFiles FILES fs).2.1 = []
      · exact Or.inr (fun he => hn ⟨hm, he⟩)
      · exact Or.inl hm
    · rintro (hm | he) ⟨h1, h2⟩
      · exact hm h1
      · exact he h2
  · show d.map (fun p => p.1) = _
    have hbd2 : buildData (CONFIG.map (fun c => (c.1, c.2.2)))
        (loadedOf CONFIG fs) = .ok d := by
      rw [← POLICIES_eq, ← loaded_eq CONFIG fs, ← FILES_eq]
      exact hbd
    rw [buildData_keys CONFIG fs (by decide) d hbd2]
    rw [FILES_eq, List.filter_map, List.map_map]
    rfl

/-- C8 witness: the amended statement on `fsC8`. -/
theorem C8_witness :
    mainReport fsC8 = .ok C8report ∧
    (C8report.status_ok = false ↔
      (C8report.missing_files ≠ [] ∨ C8report.errors ≠ [])) ∧
    C8report.missing_files =
      (FILES.filter (fun p => (fsC8 p.2).isMissing)).map (fun p => p.2) ∧
    C8report.errors.map (fun p => p.1) =
      (FILES.filter (fun p => (fsC8 p.2).isUnparsable)).map (fun p => p.2) ∧
    C8report.data.map (fun p => p.1) =
      (FILES.filter (fun p => (fsC8 p.2).isParsed)).map (fun p => p.1) :=
  ⟨rfl, (C8_theorem fsC8 C8report rfl).1, (C8_theorem fsC8 C8report rfl).2.1,
   (C8_theorem fsC8 C8report rfl).2.2.1, (C8_theorem fsC8 C8report rfl).2.2.2⟩

/-- C9, counterexample: `keep_summary_only` (the bundle's summarizer for
pre-summarized period files) does *not* pass a rows-less document through
unchanged — it projects onto `ok`/`version`/`summary`/`label_counts`,
dropping the `count` key and materialising `ok`/`version`. -/
theorem C9_counterexample :
    keep_summary_only (Json.obj [("count", Json.num 5),
        ("summary", Json.obj [("count", Json.num 1)]),
        ("label_counts", Json.obj [("total", Json.num 1)])])
      = .ok (Json.obj [("ok", Json.bool true), ("version", Json.null),
          ("summary", Json.obj [("count", Json.num 1)]),
          ("label_counts", Json.obj [("total", Json.num 1)])]) ∧
    Json.obj [("ok", Json.bool true), ("version", Json.null),
        ("summary", Json.obj [("count", Json.num 1)]),
        ("label_counts", Json.obj [("total", Json.num 1)])]
      ≠ Json.obj [("count", Json.num 5),
        ("summary", Json.obj [("count", Json.num 1)]),
        ("label_counts", Json.obj [("total", Json.num 1)])] :=
  ⟨rfl, by simp⟩

/-- C9 (amended): `build_report.py`'s `summarize_timeseries_file` passes a
document without a `rows` key through unchanged, so summarizing twice is
summarizing once; the bundle's `keep_summary_only` is also idempotent on
pre-summarized documents, but it is a projection, not the identity. -/
theorem C9_theorem (kvs : List (String × Json))
    (hnr : kvs.any (fun p => p.1 == "rows") = false)
    (hs : (jLookup kvs "summary").isSome = true)
    (hl : (jLookup kvs "label_counts").isSome = true) :
    summarize_timeseries_file (.obj kvs) = .ok (.obj kvs) ∧
    (summarize_timeseries_file (.obj kvs) >>= summarize_timeseries_file)
      = summarize_timeseries_file (.obj kvs) ∧
    (∃ out, keep_summary_only (.obj kvs) = .ok (.obj out) ∧
      keep_summary_only (.obj out) = .ok (.obj out)) := by
  have hstf : summarize_timeseries_file (.obj kvs) = .ok (.obj kvs) := by
    simp [summarize_timeseries_file, pyContains, hnr, Bind.bind, Except.bind]
  refine ⟨hstf, ?_, ?_⟩
  · rw [hstf]
    simp [Bind.bind, Except.bind, hstf]
  · obtain ⟨s, hsv⟩ := Option.isSome_iff_exists.mp hs
    obtain ⟨l, hlv⟩ := Option.isSome_iff_exists.mp hl
    have hrn : jLookup kvs "rows" = none := jLookup_any_false kvs "rows" hnr
    refine ⟨[("ok", .bool (truthy ((jLookup kvs "ok").getD (.bool true)))),
             ("version", (jLookup kvs "version").getD .null),
             ("summary", s), ("label_counts", l)], ?_, ?_⟩
    · simp [keep_summary_only, hsv, hlv, hrn]
    · simp [keep_summary_only, jLookup_cons, truthy]

/-- C9 witness: a pre-summarized document carrying an extra `count`
key. -/
theorem C9_witness :
    summarize_timeseries_file (.obj [("summary", Json.obj []),
        ("label_counts", Json.obj []), ("count", Json.num 5)])
      = .ok (.obj [("summary", Json.obj []),
          ("label_counts", Json.obj []), ("count", Json.num 5)]) ∧
    (summarize_timeseries_file (.obj [("summary", Json.obj []),
        ("label_counts", Json.obj []), ("count", Json.num 5)])
        >>= summarize_timeseries_file)
      = summarize_timeseries_file (.obj [("summary", Json.obj []),
          ("label_counts", Json.obj []), ("count", Json.num 5)]) ∧
    (∃ out, keep_summary_only (.obj [("summary", Json.obj []),
        ("label_counts", Json.obj []), ("count", Json.num 5)])
        = .ok (.obj out) ∧
      keep_summary_only (.obj out) = .ok (.obj out)) :=
  C9_theorem [("summary", Json.obj []), ("label_counts", Json.obj []),
    ("count", Json.num 5)] (by decide) (by decide) (by decide)

/-- C10 (confirmed): `build_report_bundle.py` can never complete a report
write.  The nested `def fnum` block (lines 223–227) is mis-indented — its
`try:` sits at the same indentation as the `def` header — so CPython
raises `IndentationError` while parsing the module, before any statement
runs; on every filesystem state the script errors out without writing.
Moreover, in the `main` body itself `t1` is read (line 171) outside the
`if "tier1" in loaded:` block that assigns it, so even a parsed variant
would raise `NameError` whenever `tier1.json` did not load. -/
theorem C10_theorem :
    (∀ fs, run_bundle_script fs = .error .indentationError) ∧
    bundle_parses = false ∧
    (∀ fs, jLookup (loadFiles BFILES fs).2.2.2 "tier1" = none →
      bundleMain fs = .error (.nameError "t1")) := by
  refine ⟨?_, rfl, ?_⟩
  · intro fs
    simp [run_bundle_script, show bundle_parses = false from rfl]
  · intro fs h
    unfold bundleMain
    simp [h, Bind.bind, Except.bind]

/-- C10 witness: the empty filesystem. -/
theorem C10_witness :
    run_bundle_script (fun _ => FileState.missing) = .error .indentationError ∧
    bundleMain (fun _ => FileState.missing) = .error (.nameError "t1") :=
  ⟨C10_theorem.1 (fun _ => FileState.missing),
   C10_theorem.2.2 (fun _ => FileState.missing) rfl⟩

end BtcData
